import Mathlib

/-!
Servatrice bootstrap (`servatrice/src/main.cpp`)

A shallow embedding of the server's `main.cpp`: command-line parsing, the two
Qt message handlers, the fatal-signal handler, the RNG self-test harness, the
hash benchmark and the bootstrap/teardown sequence of `main`.

Effects are modelled by explicit state passing: every function of the source
is a transformer of a `ProcessState`, which holds the process-wide message
handler, the signal disposition table, the signals raised but not yet
delivered, and the ordered trace of the external actions performed so far.
Calls into code outside `main.cpp` (Qt, the logger, the settings cache, the
RNG, the server object, libc) are recorded as `Event`s; the values such calls
return are supplied by an environment record that the theorems quantify over.
-/

namespace Servatrice

/-! ## Data model -/

/-- The signal numbers that `main.cpp` takes from `<signal.h>`. They are
platform constants, so the embedding takes them as a parameter. -/
structure SignalNumbers where
  SIGHUP : Int
  SIGABRT : Int
  SIGSEGV : Int
  SIGPIPE : Int
deriving DecidableEq, Repr

/-- The values of the four signal numbers on Linux. -/
def linuxSignals : SignalNumbers := ⟨1, 6, 11, 13⟩

/-- The four signal numbers are pairwise different (guaranteed by POSIX). -/
def SignalNumbers.Distinct (s : SignalNumbers) : Prop :=
  [s.SIGHUP, s.SIGABRT, s.SIGSEGV, s.SIGPIPE].Nodup

instance (s : SignalNumbers) : Decidable s.Distinct := by
  unfold SignalNumbers.Distinct; infer_instance

/-- The message handler installed with `qInstallMessageHandler`: Qt's built-in
one, or one of the two callbacks defined in `main.cpp`. -/
inductive MsgHandler
  | qtDefault
  | myMessageOutput
  | myMessageOutput2
deriving DecidableEq, Repr

/-- The functions `main` installs as signal handlers. -/
inductive SigHandler
  | hupSignalHandler
  | sigSegvHandler
deriving DecidableEq, Repr

/-- The two `sa_flags` bits that `main` uses. -/
structure SigFlags where
  SA_RESTART : Bool
  SA_RESETHAND : Bool
deriving DecidableEq, Repr

/-- Disposition of one signal. -/
inductive Disposition
  | SIG_DFL
  | SIG_IGN
  | handler (h : SigHandler) (flags : SigFlags)
deriving DecidableEq, Repr

/-- External actions, in the order the process performs them. -/
inductive Event
  | setOrganizationName (s : String)
  | setApplicationName (s : String)
  | qRegisterMetaType (s : String)
  | guessConfigurationPath (arg : String)
  | newSettingsCache (path : String)
  | newLoggerThread
  | setObjectName (s : String)
  | newServerLogger (logToConsole : Bool)
  | moveToThread
  | loggerThreadStart
  | startLog (file : String)
  | qInstallMessageHandler (h : MsgHandler)
  | sigaction (sig : Int) (d : Disposition)
  | signal (sig : Int) (d : Disposition)
  | newRNG
  | cerr (s : String)
  | passwordHasherInit
  | makeNumbersVector (n min max : Int)
  | testRandom (numbers : List Int)
  | currentDateTime
  | computeHash (password salt : String)
  | newServatrice
  | connectDestroyedToQuit
  | initServer (ok : Bool)
  | appExec (ret : Int)
  | deleteRng
  | deleteSettingsCache
  | loggerDeleteLater
  | loggerThreadWait
  | deleteLoggerThread
  | shutdownProtobufLibrary
  | mainReturn (status : Int)
  | logMessage (msg : String)
  | qtDefaultOutput (msg : String)
  | backtrace (depth : Nat)
  | fprintfStderr (s : String)
  | backtraceSymbolsFd
  | raise (sig : Int)
  | defaultAction (sig : Int)
  | hupSignalHandler (sig : Int)
deriving DecidableEq, Repr

/-- Process-wide state that `main.cpp` reads and writes. -/
structure ProcessState where
  /-- the handler last installed with `qInstallMessageHandler` -/
  msgHandler : MsgHandler
  /-- signal dispositions, most recent entry first; a signal without an
  entry has the default disposition -/
  sigTable : List (Int × Disposition)
  /-- signals raised and not yet delivered -/
  pending : List Int
  /-- the actions performed so far, oldest first -/
  trace : List Event
deriving DecidableEq, Repr

/-- State of a process that has not run anything yet. -/
def ProcessState.init : ProcessState := ⟨.qtDefault, [], [], []⟩

/-- Record one external action. -/
def ProcessState.emit (st : ProcessState) (e : Event) : ProcessState :=
  { st with trace := st.trace ++ [e] }

/-- Current disposition of `sig`. -/
def ProcessState.disposition (st : ProcessState) (sig : Int) : Disposition :=
  match st.sigTable.find? (fun p => p.1 == sig) with
  | some p => p.2
  | none => .SIG_DFL

/-- Set the disposition of `sig` without recording an action. -/
def ProcessState.setDisposition (st : ProcessState) (sig : Int) (d : Disposition) :
    ProcessState :=
  { st with sigTable := (sig, d) :: st.sigTable }

/-- The messages passed to `logger->logMessage` in a trace, in order. -/
def loggedMessages (tr : List Event) : List String :=
  tr.filterMap fun e => match e with
    | .logMessage m => some m
    | _ => none

/-- The texts written to `std::cerr` in a trace, in order. -/
def cerrOutput (tr : List Event) : List String :=
  tr.filterMap fun e => match e with
    | .cerr s => some s
    | _ => none

/-! ## Message handlers (`main.cpp` lines 121-130) -/

/-- `myMessageOutput`: hands the message to the logger. -/
def myMessageOutput (msg : String) (st : ProcessState) : ProcessState :=
  st.emit (.logMessage msg)

/-- `myMessageOutput2`: hands the message to the logger, then writes it and a
line end to `std::cerr`. -/
def myMessageOutput2 (msg : String) (st : ProcessState) : ProcessState :=
  let st := st.emit (.logMessage msg)
  st.emit (.cerr (msg ++ "\n"))

/-- Body of a message handler. Qt's built-in handler prints the message
itself; it is not part of `main.cpp` and appears as one action. -/
def MsgHandler.run : MsgHandler → String → ProcessState → ProcessState
  | .qtDefault, msg, st => st.emit (.qtDefaultOutput msg)
  | .myMessageOutput, msg, st => Servatrice.myMessageOutput msg st
  | .myMessageOutput2, msg, st => Servatrice.myMessageOutput2 msg st

/-- The actions a handler performs for one message. -/
def MsgHandler.events (h : MsgHandler) (msg : String) : List Event :=
  (h.run msg ProcessState.init).trace

/-- A diagnostic message (`qDebug`, `qWarning`, ...) goes to whichever handler
is installed at that moment. -/
def qtMessage (msg : String) (st : ProcessState) : ProcessState :=
  st.msgHandler.run msg st

/-- `qInstallMessageHandler(h)`. -/
def qInstallMessageHandler (h : MsgHandler) (st : ProcessState) : ProcessState :=
  { st with msgHandler := h, trace := st.trace ++ [.qInstallMessageHandler h] }

/-! ## Fatal signal handler (`main.cpp` lines 134-156) -/

/-- `SIGSEGV_TRACE_LINES` (line 40). -/
def SIGSEGV_TRACE_LINES : Nat := 40

/-- `raise(sig)`: the signal is recorded and becomes pending. -/
def raise (sig : Int) (st : ProcessState) : ProcessState :=
  { st with pending := st.pending ++ [sig], trace := st.trace ++ [.raise sig] }

/-- `sigSegvHandler(sig)`. Every call is taken to return; in particular
`loggerThread->wait()` is one action of the trace. -/
def sigSegvHandler (sigs : SignalNumbers) (sig : Int) (st : ProcessState) : ProcessState :=
  let st := st.emit (.backtrace SIGSEGV_TRACE_LINES)
  let st := st.emit (.fprintfStderr ("Error: signal " ++ toString sig ++ ":\n"))
  let st := st.emit .backtraceSymbolsFd
  let st :=
    if sig = sigs.SIGSEGV then st.emit (.logMessage "CRASH: SIGSEGV")
    else if sig = sigs.SIGABRT then st.emit (.logMessage "CRASH: SIGABRT")
    else st
  let st := st.emit .loggerDeleteLater
  let st := st.emit .loggerThreadWait
  let st := st.emit .deleteLoggerThread
  raise sig st

/-! ## Signal dispositions and delivery

`sigaction`, `signal` and the delivery of a signal are the operating system's;
they are modelled after POSIX: a handler installed with `SA_RESETHAND` has its
signal reset to the default disposition when the handler is entered. -/

/-- `sigaction(sig, &act, 0)`. -/
def sigaction (sig : Int) (d : Disposition) (st : ProcessState) : ProcessState :=
  { st with sigTable := (sig, d) :: st.sigTable, trace := st.trace ++ [.sigaction sig d] }

/-- `signal(sig, disposition)`. -/
def signal (sig : Int) (d : Disposition) (st : ProcessState) : ProcessState :=
  { st with sigTable := (sig, d) :: st.sigTable, trace := st.trace ++ [.signal sig d] }

/-- Delivery of `sig` to the process. The default action is one recorded
action; an ignored signal leaves no mark; a handler is run, after the
disposition has been reset when the handler was installed with
`SA_RESETHAND`. The body of `ServerLogger::hupSignalHandler` is outside
`main.cpp` and is one recorded action. -/
def deliver (sigs : SignalNumbers) (sig : Int) (st : ProcessState) : ProcessState :=
  match st.disposition sig with
  | .SIG_DFL => st.emit (.defaultAction sig)
  | .SIG_IGN => st
  | .handler h flags =>
    let st := if flags.SA_RESETHAND then st.setDisposition sig .SIG_DFL else st
    match h with
    | .sigSegvHandler => sigSegvHandler sigs sig st
    | .hupSignalHandler => st.emit (.hupSignalHandler sig)

/-- Deliver the pending signals, oldest first, until none is left; `none` when
the fuel runs out first. -/
def deliverPending (sigs : SignalNumbers) : Nat → ProcessState → Option ProcessState
  | 0, st => if st.pending = [] then some st else none
  | fuel + 1, st =>
    match st.pending with
    | [] => some st
    | sig :: rest => deliverPending sigs fuel (deliver sigs sig { st with pending := rest })

/-- A signal arrives: it is delivered, and so is every signal raised while
handling it. -/
def signalArrives (sigs : SignalNumbers) (fuel : Nat) (sig : Int) (st : ProcessState) :
    Option ProcessState :=
  deliverPending sigs fuel (deliver sigs sig st)

/-- The signal is intercepted by the fatal-signal handler and has not fired
yet: its disposition is `sigSegvHandler`, installed single-shot. -/
def Armed (st : ProcessState) (sig : Int) : Prop :=
  st.disposition sig = .handler .sigSegvHandler ⟨false, true⟩

instance (st : ProcessState) (sig : Int) : Decidable (Armed st sig) := by
  unfold Armed; infer_instance

/-- The fatal-signal handler has been entered for `sig` (it announced the
signal on `stderr`) and the default disposition of `sig` is back in place. -/
def Firing (st : ProcessState) (sig : Int) : Prop :=
  st.disposition sig = .SIG_DFL ∧
    Event.fprintfStderr ("Error: signal " ++ toString sig ++ ":\n") ∈ st.trace

instance (st : ProcessState) (sig : Int) : Decidable (Firing st sig) := by
  unfold Firing; infer_instance

/-- How many times `sigSegvHandler` was entered in a trace: each entry starts
with the `backtrace` call. -/
def handlerEntries (tr : List Event) : Nat :=
  tr.count (.backtrace SIGSEGV_TRACE_LINES)

/-! ## Command line (`main.cpp` lines 165-172) -/

/-- Search of `QStringList::indexOf`: position of the first element equal to
`s`, counting from `i` at the head of the list, `-1` when there is none. -/
def indexOfFrom (s : String) : List String → Int → Int
  | [], _ => -1
  | x :: xs, i => if x = s then i else indexOfFrom s xs (i + 1)

/-- `args.indexOf(s)`. -/
def indexOf (args : List String) (s : String) : Int :=
  indexOfFrom s args 0

/-- The four values `main` reads from the argument list. -/
structure CliFlags where
  testRandom : Bool
  testHashFunction : Bool
  logToConsole : Bool
  configPath : String
deriving DecidableEq, Repr

/-- Lines 165-172 of `main`. `args.count()` and `hasConfigPath + 1` are C++
`int`s; the index is below the count, so the sum cannot overflow. A default
constructed `QString` is the empty string. -/
def mainParseArguments (args : List String) : CliFlags :=
  let testRandom := args.contains "--test-random"
  let testHashFunction := args.contains "--test-hash"
  let logToConsole := args.contains "--log-to-console"
  let hasConfigPath := indexOf args "--config"
  let configPath :=
    if hasConfigPath > -1 ∧ (args.length : Int) > hasConfigPath + 1 then
      args.getD (hasConfigPath + 1).toNat ""
    else ""
  ⟨testRandom, testHashFunction, logToConsole, configPath⟩

/-! ## RNG self-test (`main.cpp` lines 64-96) -/

/-- The injected random number generator (`RNG_Abstract`), with its internal
state of type `σ` made explicit; `χ` stands for C++ `double`. -/
structure RNG (σ χ : Type) where
  makeNumbersVector : σ → Int → Int → Int → List Int × σ
  testRandom : σ → List Int → χ × σ

/-- What the harness needs of C++ `double`: the value a `QVector<double>` is
filled with, and `QString::number(x, 'f', 3)`. -/
structure Doubles (χ : Type) where
  zero : χ
  number : χ → String

/-- Value of a C++ `int` expression: the exact result brought into the range
of a 32-bit two's complement integer. -/
def wrap32 (x : Int) : Int :=
  (x + 2147483648) % 4294967296 - 2147483648

/-- The values `lo, lo+1, ..., hi` that `for (int x = lo; x <= hi; ++x)` runs
through. -/
def intRange (lo hi : Int) : List Int :=
  (List.range (hi + 1 - lo).toNat).map fun i => lo + (i : Int)

namespace testRNG

/-- `const int n = 500000`. -/
def n : Int := 500000
/-- `const int min = 1`. -/
def min : Int := 1
/-- `const int minMax = 2`. -/
def minMax : Int := 2
/-- `const int maxMax = 10`. -/
def maxMax : Int := 10

end testRNG

/-- The local variables of `testRNG`, the RNG state and the process state. -/
structure RNGTest (σ χ : Type) where
  numbers : List (List Int)
  chisq : List χ
  rng : σ
  st : ProcessState

/-- Body of the first loop of `testRNG` (lines 76-77) for one value of `max`. -/
def testRNG.sample {σ χ : Type} (rng : RNG σ χ) (r : RNGTest σ χ) (max : Int) :
    RNGTest σ χ :=
  let count := wrap32 (testRNG.n * wrap32 (wrap32 (max - testRNG.min) + 1))
  let slot := (wrap32 (max - testRNG.minMax)).toNat
  let drawn := rng.makeNumbersVector r.rng count testRNG.min max
  let st := r.st.emit (.makeNumbersVector count testRNG.min max)
  let numbers := r.numbers.set slot drawn.1
  let tested := rng.testRandom drawn.2 (numbers.getD slot [])
  let st := st.emit (.testRandom (numbers.getD slot []))
  ⟨numbers, r.chisq.set slot tested.1, tested.2, st⟩

/-- One row of the table printed by lines 80-87: the bin value `min + i`, then
for every tested width a tab and, when the histogram has an entry `i`, that
entry; then the line end. -/
def testRNG.row (numbers : List (List Int)) (i : Int) : String :=
  toString (testRNG.min + i) ++
    String.join ((List.range numbers.length).map fun j =>
      if i < ((numbers.getD j []).length : Int) then
        "\t" ++ toString ((numbers.getD j []).getD i.toNat 0)
      else "\t") ++ "\n"

/-- `testRNG()` run on the RNG state `s`. Consecutive writes to `std::cerr`
are recorded together: one action for the heading, one for every row of the
table, one for the closing `Chi^2` and `k` lines. -/
def testRNG {σ χ : Type} (rng : RNG σ χ) (dbl : Doubles χ) (s : σ) (st : ProcessState) :
    RNGTest σ χ :=
  let st := st.emit (.cerr ("Testing random number generator (n = " ++ toString testRNG.n ++
    " * bins)...\n"))
  let size := (testRNG.maxMax - testRNG.minMax + 1).toNat
  let r : RNGTest σ χ := ⟨List.replicate size [], List.replicate size dbl.zero, s, st⟩
  let r := (intRange testRNG.minMax testRNG.maxMax).foldl (testRNG.sample rng) r
  let st := (intRange 0 (testRNG.maxMax - testRNG.min)).foldl
    (fun st i => st.emit (.cerr (testRNG.row r.numbers i))) r.st
  let st := st.emit (.cerr ("\nChi^2 =" ++
    String.join (r.chisq.map fun c => "\t" ++ dbl.number c) ++ "\nk =" ++
    String.join ((List.range r.chisq.length).map fun j =>
      "\t" ++ toString ((j : Int) - testRNG.min + testRNG.minMax)) ++ "\n\n"))
  { r with st := st }

/-- The requests `makeNumbersVector(n, min, max)` made in a trace, in order. -/
def rngRequests (tr : List Event) : List (Int × Int × Int) :=
  tr.filterMap fun e => match e with
    | .makeNumbersVector k lo hi => some (k, lo, hi)
    | _ => none

/-! ## Hash benchmark (`main.cpp` lines 98-107) -/

/-- `const int n = 5000` of `testHash`. -/
def testHash.n : Nat := 5000

/-- `testHash()`; `startTime` and `endTime` are the two clock readings, in
seconds. -/
def testHash (startTime endTime : Int) (st : ProcessState) : ProcessState :=
  let st := st.emit (.cerr ("Benchmarking password hash function (n =" ++
    toString testHash.n ++ ")...\n"))
  let st := st.emit .currentDateTime
  let st := (List.range testHash.n).foldl
    (fun st _ => st.emit (.computeHash "aaaaaa" "aaaaaaaaaaaaaaaa")) st
  let st := st.emit .currentDateTime
  st.emit (.cerr (toString (endTime - startTime) ++ "secs\n"))

/-! ## `main` (`main.cpp` lines 159-263) -/

/-- Everything `main` obtains from outside `main.cpp`. -/
structure Env (σ χ : Type) where
  /-- the platform's signal numbers -/
  sigs : SignalNumbers
  /-- `VERSION_STRING` -/
  version : String
  /-- `SettingsCache::guessConfigurationPath` -/
  guessConfigurationPath : String → String
  /-- the message text that a `QDebug` stream builds from its operands -/
  qDebug : List String → String
  /-- the value of the setting `server/logfile` -/
  logfile : String
  /-- the RNG engine and its state when constructed -/
  rng : RNG σ χ
  rngInit : σ
  dbl : Doubles χ
  /-- the two clock readings of `testHash` -/
  hashStart : Int
  hashEnd : Int
  /-- the diagnostic messages emitted while `initServer()` runs -/
  initMessages : List String
  /-- the value `server->initServer()` returns -/
  initServer : Bool
  /-- the diagnostic messages emitted while the event loop runs -/
  loopMessages : List String
  /-- the value `app.exec()` returns -/
  exec : Int

/-- Lines 161-191: application object, argument parsing (see
`mainParseArguments`), configuration source, logger thread and logger, and the
blocking `startLog` call. -/
def mainStartLogger {σ χ : Type} (env : Env σ χ) (flags : CliFlags) (st : ProcessState) :
    ProcessState :=
  let st := st.emit (.setOrganizationName "Cockatrice")
  let st := st.emit (.setApplicationName "Servatrice")
  let st := st.emit (.qRegisterMetaType "QList<int>")
  let st := st.emit (.guessConfigurationPath flags.configPath)
  let configPath := env.guessConfigurationPath flags.configPath
  let st := qtMessage (env.qDebug ["Using configuration file: ", configPath]) st
  let st := st.emit (.newSettingsCache configPath)
  let st := st.emit .newLoggerThread
  let st := st.emit (.setObjectName "logger")
  let st := st.emit (.newServerLogger flags.logToConsole)
  let st := st.emit .moveToThread
  let st := st.emit .loggerThreadStart
  st.emit (.startLog env.logfile)

/-- Lines 199-202: the first installation of a message handler. -/
def mainInstallPhase1 (flags : CliFlags) (st : ProcessState) : ProcessState :=
  if flags.logToConsole then qInstallMessageHandler .myMessageOutput st
  else qInstallMessageHandler .myMessageOutput2 st

/-- Lines 206-220: the signal dispositions (the `Q_OS_UNIX` part of `main`). -/
def mainInstallSignals (sigs : SignalNumbers) (st : ProcessState) : ProcessState :=
  let st := sigaction sigs.SIGHUP (.handler .hupSignalHandler ⟨true, false⟩) st
  let st := sigaction sigs.SIGSEGV (.handler .sigSegvHandler ⟨false, true⟩) st
  let st := sigaction sigs.SIGABRT (.handler .sigSegvHandler ⟨false, true⟩) st
  signal sigs.SIGPIPE .SIG_IGN st

/-- Lines 222-232: RNG engine, banner, password hasher, the two optional
self-tests. -/
def mainSelfTests {σ χ : Type} (env : Env σ χ) (flags : CliFlags) (st : ProcessState) :
    ProcessState :=
  let st := st.emit .newRNG
  let st := st.emit (.cerr ("Servatrice " ++ env.version ++ " starting.\n"))
  let st := st.emit (.cerr "-------------------------\n")
  let st := st.emit .passwordHasherInit
  let st := if flags.testRandom then (testRNG env.rng env.dbl env.rngInit st).st else st
  if flags.testHashFunction then testHash env.hashStart env.hashEnd st else st

/-- Lines 234-250: the server object, its initialisation and, when that
succeeds, the second handler installation and the event loop. Returns
`retval` with the new state. -/
def mainRunServer {σ χ : Type} (env : Env σ χ) (st : ProcessState) : Int × ProcessState :=
  let st := st.emit .newServatrice
  let st := st.emit .connectDestroyedToQuit
  let retval : Int := 0
  let st := env.initMessages.foldl (fun st m => qtMessage m st) st
  let st := st.emit (.initServer env.initServer)
  if env.initServer then
    let st := st.emit (.cerr "-------------------------\n")
    let st := st.emit (.cerr "Server initialized.\n")
    let st := qInstallMessageHandler .myMessageOutput st
    let st := env.loopMessages.foldl (fun st m => qtMessage m st) st
    let st := st.emit (.appExec env.exec)
    let retval := env.exec
    let st := st.emit (.cerr "Server quit.\n")
    let st := st.emit (.cerr "-------------------------\n")
    (retval, st)
  else
    (retval, st)

/-- Lines 252-262: teardown and return. -/
def mainTeardown (retval : Int) (st : ProcessState) : Int × ProcessState :=
  let st := st.emit .deleteRng
  let st := st.emit .deleteSettingsCache
  let st := st.emit .loggerDeleteLater
  let st := st.emit .loggerThreadWait
  let st := st.emit .deleteLoggerThread
  let st := st.emit .shutdownProtobufLibrary
  (retval, st.emit (.mainReturn retval))

/-- State of the process when `main` reaches line 204: the logger has been
started and the first message handler is installed. -/
def mainPhase1 {σ χ : Type} (env : Env σ χ) (args : List String) : ProcessState :=
  let flags := mainParseArguments args
  mainInstallPhase1 flags (mainStartLogger env flags ProcessState.init)

/-- State of the process when `main` reaches line 233: handlers installed,
self-tests done, server not yet constructed. -/
def mainBootstrap {σ χ : Type} (env : Env σ χ) (args : List String) : ProcessState :=
  mainSelfTests env (mainParseArguments args)
    (mainInstallSignals env.sigs (mainPhase1 env args))

/-- `main(argc, argv)`, with `args = app.arguments()`: the exit status and the
final state of the process. -/
def main {σ χ : Type} (env : Env σ χ) (args : List String) : Int × ProcessState :=
  let served := mainRunServer env (mainBootstrap env args)
  mainTeardown served.1 served.2

/-- The resources of the process state that `main` owns. -/
inductive Resource
  | settingsCache
  | loggerThread
  | logger
  | rng
deriving DecidableEq, Repr

/-- The resource an action constructs, if any. -/
def constructs : Event → Option Resource
  | .newSettingsCache _ => some .settingsCache
  | .newLoggerThread => some .loggerThread
  | .newServerLogger _ => some .logger
  | .newRNG => some .rng
  | _ => none

/-- The resource an action releases, if any. -/
def releases : Event → Option Resource
  | .deleteRng => some .rng
  | .deleteSettingsCache => some .settingsCache
  | .loggerDeleteLater => some .logger
  | .deleteLoggerThread => some .loggerThread
  | _ => none

/-- A small environment for running `main` on concrete inputs: an RNG that
puts every sample in the first bucket, no diagnostics during initialisation,
one during the event loop. -/
def demoEnv (ok : Bool) (status : Int) : Env Unit Int where
  sigs := linuxSignals
  version := "test"
  guessConfigurationPath := fun p => if p = "" then "servatrice.ini" else p
  qDebug := String.join
  logfile := "server.log"
  rng := ⟨fun _ k lo hi => (k :: List.replicate (hi - lo).toNat 0, ()), fun _ _ => (0, ())⟩
  rngInit := ()
  dbl := ⟨0, fun c => toString c⟩
  hashStart := 0
  hashEnd := 1
  initMessages := ["init"]
  initServer := ok
  loopMessages := ["loop"]
  exec := status


/-- Actions that only report, sample or measure: console and log output, the
requests of the RNG self-test and the steps of the hash benchmark. -/
def Event.isDiagnostic : Event → Bool
  | .cerr _ => true
  | .makeNumbersVector _ _ _ => true
  | .testRandom _ => true
  | .currentDateTime => true
  | .computeHash _ _ => true
  | .logMessage _ => true
  | .qtDefaultOutput _ => true
  | _ => false

/-- The actions of one run of `testRNG`. -/
def testRNGEvents {σ χ : Type} (env : Env σ χ) : List Event :=
  (testRNG env.rng env.dbl env.rngInit ProcessState.init).st.trace

/-- The actions of one run of `testHash`. -/
def testHashEvents {σ χ : Type} (env : Env σ χ) : List Event :=
  (testHash env.hashStart env.hashEnd ProcessState.init).trace

/-- The results `app.exec()` returned in a trace, one per run of the event
loop. -/
def execRuns (tr : List Event) : List Int :=
  tr.filterMap fun e => match e with
    | .appExec r => some r
    | _ => none

/-- The message handlers installed in a trace, in order. -/
def installs (tr : List Event) : List MsgHandler :=
  tr.filterMap fun e => match e with
    | .qInstallMessageHandler h => some h
    | _ => none

/-- The arguments with which the configuration resolver was called in a
trace. -/
def resolverArguments (tr : List Event) : List String :=
  tr.filterMap fun e => match e with
    | .guessConfigurationPath p => some p
    | _ => none

/-- The results of the calls of `server->initServer()` in a trace. -/
def serverInits (tr : List Event) : List Bool :=
  tr.filterMap fun e => match e with
    | .initServer ok => some ok
    | _ => none

/-- The actions of the teardown: releases, the shutdown request and wait, the
protobuf hook and the return. -/
def Event.isTeardown : Event → Bool
  | .deleteRng => true
  | .deleteSettingsCache => true
  | .loggerDeleteLater => true
  | .loggerThreadWait => true
  | .deleteLoggerThread => true
  | .shutdownProtobufLibrary => true
  | .mainReturn _ => true
  | _ => false

/-- The calls of `PasswordHasher::computeHash` in a trace. -/
def hashCalls (tr : List Event) : List (String × String) :=
  tr.filterMap fun e => match e with
    | .computeHash pw salt => some (pw, salt)
    | _ => none

/-! ## Basic facts about the state transformers -/

section Basics

variable (st : ProcessState) (e : Event) (sig : Int) (d : Disposition) (h : MsgHandler)
  (msg : String)

@[simp] theorem emit_trace : (st.emit e).trace = st.trace ++ [e] := rfl
@[simp] theorem emit_msgHandler : (st.emit e).msgHandler = st.msgHandler := rfl
@[simp] theorem emit_sigTable : (st.emit e).sigTable = st.sigTable := rfl
@[simp] theorem emit_pending : (st.emit e).pending = st.pending := rfl

@[simp] theorem install_trace :
    (qInstallMessageHandler h st).trace = st.trace ++ [.qInstallMessageHandler h] := rfl
@[simp] theorem install_msgHandler : (qInstallMessageHandler h st).msgHandler = h := rfl
@[simp] theorem install_sigTable : (qInstallMessageHandler h st).sigTable = st.sigTable := rfl
@[simp] theorem install_pending : (qInstallMessageHandler h st).pending = st.pending := rfl

@[simp] theorem sigaction_trace : (sigaction sig d st).trace = st.trace ++ [.sigaction sig d] := rfl
@[simp] theorem sigaction_msgHandler : (sigaction sig d st).msgHandler = st.msgHandler := rfl
@[simp] theorem sigaction_sigTable : (sigaction sig d st).sigTable = (sig, d) :: st.sigTable := rfl
@[simp] theorem sigaction_pending : (sigaction sig d st).pending = st.pending := rfl

@[simp] theorem signal_trace : (signal sig d st).trace = st.trace ++ [.signal sig d] := rfl
@[simp] theorem signal_msgHandler : (signal sig d st).msgHandler = st.msgHandler := rfl
@[simp] theorem signal_sigTable : (signal sig d st).sigTable = (sig, d) :: st.sigTable := rfl
@[simp] theorem signal_pending : (signal sig d st).pending = st.pending := rfl

@[simp] theorem raise_trace : (raise sig st).trace = st.trace ++ [.raise sig] := rfl
@[simp] theorem raise_msgHandler : (raise sig st).msgHandler = st.msgHandler := rfl
@[simp] theorem raise_sigTable : (raise sig st).sigTable = st.sigTable := rfl
@[simp] theorem raise_pending : (raise sig st).pending = st.pending ++ [sig] := rfl

@[simp] theorem events_qtDefault : MsgHandler.qtDefault.events msg = [.qtDefaultOutput msg] := rfl
@[simp] theorem events_myMessageOutput :
    MsgHandler.myMessageOutput.events msg = [.logMessage msg] := rfl
@[simp] theorem events_myMessageOutput2 :
    MsgHandler.myMessageOutput2.events msg = [.logMessage msg, .cerr (msg ++ "\n")] := rfl

@[simp] theorem qtMessage_trace :
    (qtMessage msg st).trace = st.trace ++ st.msgHandler.events msg := by
  cases st with
  | mk mh tbl pend tr => cases mh <;> simp [qtMessage, MsgHandler.run, MsgHandler.events,
      myMessageOutput, myMessageOutput2, ProcessState.init, ProcessState.emit]

@[simp] theorem qtMessage_msgHandler : (qtMessage msg st).msgHandler = st.msgHandler := by
  cases st with
  | mk mh tbl pend tr => cases mh <;> rfl

@[simp] theorem qtMessage_sigTable : (qtMessage msg st).sigTable = st.sigTable := by
  cases st with
  | mk mh tbl pend tr => cases mh <;> rfl

@[simp] theorem qtMessage_pending : (qtMessage msg st).pending = st.pending := by
  cases st with
  | mk mh tbl pend tr => cases mh <;> rfl

end Basics

/-- Dispatching a list of messages leaves handler, dispositions and pending
signals alone and appends each message's handler actions, in order. -/
theorem foldl_qtMessage (msgs : List String) (st : ProcessState) :
    (msgs.foldl (fun st m => qtMessage m st) st).trace =
        st.trace ++ (msgs.map st.msgHandler.events).flatten ∧
      (msgs.foldl (fun st m => qtMessage m st) st).msgHandler = st.msgHandler ∧
      (msgs.foldl (fun st m => qtMessage m st) st).sigTable = st.sigTable ∧
      (msgs.foldl (fun st m => qtMessage m st) st).pending = st.pending := by
  induction msgs generalizing st with
  | nil => simp
  | cons m ms ih =>
    simp only [List.foldl_cons]
    obtain ⟨h1, h2, h3, h4⟩ := ih (qtMessage m st)
    simp [h1, h2, h3, h4]

theorem foldl_qtMessage_eq (msgs : List String) (st : ProcessState) :
    msgs.foldl (fun st m => qtMessage m st) st =
      { st with trace := st.trace ++ (msgs.map st.msgHandler.events).flatten } := by
  obtain ⟨h1, h2, h3, h4⟩ := foldl_qtMessage msgs st
  cases hS : msgs.foldl (fun st m => qtMessage m st) st with
  | mk a b c d =>
    rw [hS] at h1 h2 h3 h4
    simp only at h1 h2 h3 h4
    simp [h1, h2, h3, h4]

/-! ## The fatal signal handler -/

theorem foldl_emit {α : Type} (g : α → Event) (l : List α) (st : ProcessState) :
    l.foldl (fun st a => st.emit (g a)) st = { st with trace := st.trace ++ l.map g } := by
  induction l generalizing st with
  | nil => simp
  | cons a l ih =>
    simp only [List.foldl_cons, ih]
    simp [ProcessState.emit]

theorem testRNG_sample_eq {σ χ : Type} (rng : RNG σ χ) (nums : List (List Int))
    (chis : List χ) (s : σ) (st : ProcessState) (x : Int) :
    testRNG.sample rng ⟨nums, chis, s, st⟩ x =
      ⟨(testRNG.sample rng ⟨nums, chis, s, ProcessState.init⟩ x).numbers,
        (testRNG.sample rng ⟨nums, chis, s, ProcessState.init⟩ x).chisq,
        (testRNG.sample rng ⟨nums, chis, s, ProcessState.init⟩ x).rng,
        { st with trace := st.trace ++
            (testRNG.sample rng ⟨nums, chis, s, ProcessState.init⟩ x).st.trace }⟩ := by
  simp [testRNG.sample, ProcessState.emit, ProcessState.init]

theorem testRNG_sample_diagnostic {σ χ : Type} (rng : RNG σ χ) (r : RNGTest σ χ) (x : Int) :
    ∀ e ∈ (testRNG.sample rng { r with st := ProcessState.init } x).st.trace,
      e.isDiagnostic = true := by
  simp [testRNG.sample, ProcessState.emit, ProcessState.init, Event.isDiagnostic]

theorem testRNG_fold_frame {σ χ : Type} (rng : RNG σ χ) (l : List Int) :
    ∀ (nums : List (List Int)) (chis : List χ) (s : σ),
      ∃ (delta : List Event) (nums2 : List (List Int)) (chis2 : List χ) (s2 : σ),
        (∀ e ∈ delta, e.isDiagnostic = true) ∧
        ∀ st : ProcessState, l.foldl (testRNG.sample rng) ⟨nums, chis, s, st⟩ =
          ⟨nums2, chis2, s2, { st with trace := st.trace ++ delta }⟩ := by
  induction l with
  | nil =>
    intro nums chis s
    exact ⟨[], nums, chis, s, by simp, fun st => by simp⟩
  | cons x xs ih =>
    intro nums chis s
    obtain ⟨delta, nums2, chis2, s2, hd, h⟩ :=
      ih (testRNG.sample rng ⟨nums, chis, s, ProcessState.init⟩ x).numbers
        (testRNG.sample rng ⟨nums, chis, s, ProcessState.init⟩ x).chisq
        (testRNG.sample rng ⟨nums, chis, s, ProcessState.init⟩ x).rng
    refine ⟨(testRNG.sample rng ⟨nums, chis, s, ProcessState.init⟩ x).st.trace ++ delta,
      nums2, chis2, s2, ?_, ?_⟩
    · intro e he
      rcases List.mem_append.1 he with he | he
      · exact testRNG_sample_diagnostic rng ⟨nums, chis, s, ProcessState.init⟩ x e he
      · exact hd e he
    · intro st
      rw [List.foldl_cons, testRNG_sample_eq, h]
      simp

/-- A run of `testRNG` only appends its own actions to the trace; they do not
depend on the state it starts in, and all of them are diagnostic. -/
theorem testRNG_frame {σ χ : Type} (rng : RNG σ χ) (dbl : Doubles χ) (s : σ) :
    (∀ e ∈ (testRNG rng dbl s ProcessState.init).st.trace, e.isDiagnostic = true) ∧
    ∀ st : ProcessState, (testRNG rng dbl s st).st =
      { st with trace := st.trace ++ (testRNG rng dbl s ProcessState.init).st.trace } := by
  obtain ⟨delta, nums2, chis2, s2, hd, h⟩ :=
    testRNG_fold_frame rng (intRange testRNG.minMax testRNG.maxMax)
      (List.replicate (testRNG.maxMax - testRNG.minMax + 1).toNat [])
      (List.replicate (testRNG.maxMax - testRNG.minMax + 1).toNat dbl.zero) s
  have key : ∀ st : ProcessState, ∃ tail : List Event,
      (∀ e ∈ tail, e.isDiagnostic = true) ∧
      (testRNG rng dbl s st).st = { st with trace := st.trace ++ tail } ∧
      ∀ st2 : ProcessState, (testRNG rng dbl s st2).st =
        { st2 with trace := st2.trace ++ tail } := by
    intro st
    refine ⟨[Event.cerr ("Testing random number generator (n = " ++ toString testRNG.n ++
      " * bins)...\n")] ++ delta ++
      (intRange 0 (testRNG.maxMax - testRNG.min)).map
        (fun i => Event.cerr (testRNG.row nums2 i)) ++
      [Event.cerr ("\nChi^2 =" ++
        String.join (chis2.map fun c => "\t" ++ dbl.number c) ++ "\nk =" ++
        String.join ((List.range chis2.length).map fun j =>
          "\t" ++ toString ((j : Int) - testRNG.min + testRNG.minMax)) ++ "\n\n")], ?_, ?_, ?_⟩
    · intro e he
      simp only [List.mem_append, List.mem_singleton, List.mem_map] at he
      rcases he with ((he | he) | ⟨i, _, he⟩) | he
      · subst he; rfl
      · exact hd e he
      · subst he; rfl
      · subst he; rfl
    · simp only [testRNG, h, foldl_emit]
      simp [ProcessState.emit]
    · intro st2
      simp only [testRNG, h, foldl_emit]
      simp [ProcessState.emit]
  obtain ⟨tail, ht, h0, hall⟩ := key ProcessState.init
  have htail : (testRNG rng dbl s ProcessState.init).st.trace = tail := by
    rw [hall ProcessState.init]; simp [ProcessState.init]
  refine ⟨?_, ?_⟩
  · rw [htail]; exact ht
  · intro st; rw [htail]; exact hall st

/-- A run of `testHash` only appends its own actions, all of them diagnostic. -/
theorem testHash_frame (a b : Int) :
    (∀ e ∈ (testHash a b ProcessState.init).trace, e.isDiagnostic = true) ∧
    ∀ st : ProcessState, testHash a b st =
      { st with trace := st.trace ++ (testHash a b ProcessState.init).trace } := by
  constructor
  · simp only [testHash, foldl_emit]
    simp only [ProcessState.emit, ProcessState.init, List.nil_append, List.mem_append,
      List.mem_singleton, List.mem_map, List.mem_cons, List.not_mem_nil, or_false]
    intro e he
    rcases he with (((he | he) | ⟨_, _, he⟩) | he) | he <;> subst he <;> rfl
  · intro st
    simp only [testHash, foldl_emit]
    simp [ProcessState.emit, ProcessState.init]

/-! ## The trace of `main` -/

/-- The state when the first message handler has just been installed. -/
theorem mainPhase1_eq {σ χ : Type} (env : Env σ χ) (args : List String) :
    mainPhase1 env args =
      ⟨if (mainParseArguments args).logToConsole then .myMessageOutput else .myMessageOutput2,
        [], [],
        [.setOrganizationName "Cockatrice", .setApplicationName "Servatrice",
          .qRegisterMetaType "QList<int>",
          .guessConfigurationPath (mainParseArguments args).configPath,
          .qtDefaultOutput (env.qDebug ["Using configuration file: ",
            env.guessConfigurationPath (mainParseArguments args).configPath]),
          .newSettingsCache (env.guessConfigurationPath (mainParseArguments args).configPath),
          .newLoggerThread, .setObjectName "logger",
          .newServerLogger (mainParseArguments args).logToConsole,
          .moveToThread, .loggerThreadStart, .startLog env.logfile,
          .qInstallMessageHandler
            (if (mainParseArguments args).logToConsole then .myMessageOutput
              else .myMessageOutput2)]⟩ := by
  cases hl : (mainParseArguments args).logToConsole <;>
    simp [mainPhase1, mainInstallPhase1, mainStartLogger, hl, qtMessage, MsgHandler.run,
      ProcessState.emit, ProcessState.init, qInstallMessageHandler]

/-- The state when the server is about to be constructed. -/
theorem mainBootstrap_eq {σ χ : Type} (env : Env σ χ) (args : List String) :
    mainBootstrap env args =
      ⟨(mainPhase1 env args).msgHandler,
        [(env.sigs.SIGPIPE, .SIG_IGN),
          (env.sigs.SIGABRT, .handler .sigSegvHandler ⟨false, true⟩),
          (env.sigs.SIGSEGV, .handler .sigSegvHandler ⟨false, true⟩),
          (env.sigs.SIGHUP, .handler .hupSignalHandler ⟨true, false⟩)],
        [],
        (mainPhase1 env args).trace ++
          [.sigaction env.sigs.SIGHUP (.handler .hupSignalHandler ⟨true, false⟩),
            .sigaction env.sigs.SIGSEGV (.handler .sigSegvHandler ⟨false, true⟩),
            .sigaction env.sigs.SIGABRT (.handler .sigSegvHandler ⟨false, true⟩),
            .signal env.sigs.SIGPIPE .SIG_IGN,
            .newRNG, .cerr ("Servatrice " ++ env.version ++ " starting.\n"),
            .cerr "-------------------------\n", .passwordHasherInit] ++
          (if (mainParseArguments args).testRandom then testRNGEvents env else []) ++
          (if (mainParseArguments args).testHashFunction then testHashEvents env else [])⟩ := by
  have hr := (testRNG_frame env.rng env.dbl env.rngInit).2
  have hh := (testHash_frame env.hashStart env.hashEnd).2
  rw [mainBootstrap, mainSelfTests]
  cases (mainParseArguments args).testRandom <;>
    cases (mainParseArguments args).testHashFunction <;>
    simp only [if_true, if_false, Bool.false_eq_true]
  · simp [mainInstallSignals, mainPhase1_eq, ProcessState.emit, sigaction, signal]
  · rw [hh]
    simp [mainInstallSignals, mainPhase1_eq, testHashEvents, ProcessState.emit, sigaction,
      signal]
  · rw [hr]
    simp [mainInstallSignals, mainPhase1_eq, testRNGEvents, ProcessState.emit, sigaction,
      signal]
  · rw [hh, hr]
    simp [mainInstallSignals, mainPhase1_eq, testRNGEvents, testHashEvents, ProcessState.emit,
      sigaction, signal]

/-- The exit status and the final state of `main`. -/
theorem main_eq {σ χ : Type} (env : Env σ χ) (args : List String) :
    main env args =
      (if env.initServer then env.exec else 0,
        ⟨if env.initServer then .myMessageOutput else (mainPhase1 env args).msgHandler,
          (mainBootstrap env args).sigTable, [],
          (mainBootstrap env args).trace ++ [.newServatrice, .connectDestroyedToQuit] ++
            (env.initMessages.map (mainPhase1 env args).msgHandler.events).flatten ++
            [.initServer env.initServer] ++
            (if env.initServer then
              [.cerr "-------------------------\n", .cerr "Server initialized.\n",
                .qInstallMessageHandler .myMessageOutput] ++
              env.loopMessages.map .logMessage ++
              [.appExec env.exec, .cerr "Server quit.\n",
                .cerr "-------------------------\n"]
            else []) ++
            [.deleteRng, .deleteSettingsCache, .loggerDeleteLater, .loggerThreadWait,
              .deleteLoggerThread, .shutdownProtobufLibrary,
              .mainReturn (if env.initServer then env.exec else 0)]⟩) := by
  have hmh : (mainBootstrap env args).msgHandler = (mainPhase1 env args).msgHandler := by
    rw [mainBootstrap_eq]
  have hp : (mainBootstrap env args).pending = [] := by
    rw [mainBootstrap_eq]
  have hflat : (env.loopMessages.map MsgHandler.myMessageOutput.events).flatten =
      env.loopMessages.map .logMessage := by
    induction env.loopMessages with
    | nil => rfl
    | cons m ms ih => simp [ih]
  simp only [main, mainRunServer, foldl_qtMessage_eq]
  cases env.initServer <;>
    simp [mainTeardown, ProcessState.emit, qInstallMessageHandler, hmh, hp, hflat]

theorem filter_diagnostic_nil (l : List Event) (h : ∀ e ∈ l, e.isDiagnostic = true) :
    l.filter (fun e => !e.isDiagnostic) = [] := by
  rw [List.filter_eq_nil_iff]
  intro e he
  simp [h e he]

theorem filterMap_filter_diagnostic {α : Type} (f : Event → Option α)
    (hf : ∀ e, e.isDiagnostic = true → f e = none) (l : List Event) :
    l.filterMap f = (l.filter (fun e => !e.isDiagnostic)).filterMap f := by
  induction l with
  | nil => rfl
  | cons e l ih =>
    cases hd : e.isDiagnostic
    · simp [List.filter_cons, hd, List.filterMap_cons, ih]
    · simp [List.filter_cons, hd, List.filterMap_cons, ih, hf e hd]

theorem handler_events_diagnostic (h : MsgHandler) (msgs : List String) :
    ∀ e ∈ (msgs.map h.events).flatten, e.isDiagnostic = true := by
  intro e he
  simp only [List.mem_flatten, List.mem_map] at he
  obtain ⟨l, ⟨m, _, rfl⟩, hel⟩ := he
  cases h <;> simp at hel
  · subst hel; rfl
  · subst hel; rfl
  · rcases hel with hel | hel <;> subst hel <;> rfl

theorem testRNGEvents_diagnostic {σ χ : Type} (env : Env σ χ) :
    ∀ e ∈ testRNGEvents env, e.isDiagnostic = true :=
  (testRNG_frame env.rng env.dbl env.rngInit).1

theorem testHashEvents_diagnostic {σ χ : Type} (env : Env σ χ) :
    ∀ e ∈ testHashEvents env, e.isDiagnostic = true :=
  (testHash_frame env.hashStart env.hashEnd).1

/-- The actions of `main` other than output and self-test steps. -/
theorem main_skeleton {σ χ : Type} (env : Env σ χ) (args : List String) :
    (main env args).2.trace.filter (fun e => !e.isDiagnostic) =
      [.setOrganizationName "Cockatrice", .setApplicationName "Servatrice",
        .qRegisterMetaType "QList<int>",
        .guessConfigurationPath (mainParseArguments args).configPath,
        .newSettingsCache (env.guessConfigurationPath (mainParseArguments args).configPath),
        .newLoggerThread, .setObjectName "logger",
        .newServerLogger (mainParseArguments args).logToConsole,
        .moveToThread, .loggerThreadStart, .startLog env.logfile,
        .qInstallMessageHandler (mainPhase1 env args).msgHandler,
        .sigaction env.sigs.SIGHUP (.handler .hupSignalHandler ⟨true, false⟩),
        .sigaction env.sigs.SIGSEGV (.handler .sigSegvHandler ⟨false, true⟩),
        .sigaction env.sigs.SIGABRT (.handler .sigSegvHandler ⟨false, true⟩),
        .signal env.sigs.SIGPIPE .SIG_IGN,
        .newRNG, .passwordHasherInit, .newServatrice, .connectDestroyedToQuit,
        .initServer env.initServer] ++
      (if env.initServer then
        [.qInstallMessageHandler .myMessageOutput, .appExec env.exec] else []) ++
      [.deleteRng, .deleteSettingsCache, .loggerDeleteLater, .loggerThreadWait,
        .deleteLoggerThread, .shutdownProtobufLibrary,
        .mainReturn (if env.initServer then env.exec else 0)] := by
  have h1 := filter_diagnostic_nil _ (testRNGEvents_diagnostic env)
  have h2 := filter_diagnostic_nil _ (testHashEvents_diagnostic env)
  have h3 := filter_diagnostic_nil _
    (handler_events_diagnostic (mainPhase1 env args).msgHandler env.initMessages)
  have h4 : (env.loopMessages.map Event.logMessage).filter (fun e => !e.isDiagnostic) = [] :=
    filter_diagnostic_nil _ (by
      intro e he
      obtain ⟨m, _, rfl⟩ := List.mem_map.1 he
      rfl)
  rw [main_eq, mainBootstrap_eq]
  simp only [List.filter_append, h3]
  have h5 : (mainPhase1 env args).trace.filter (fun e => !e.isDiagnostic) =
      [.setOrganizationName "Cockatrice", .setApplicationName "Servatrice",
        .qRegisterMetaType "QList<int>",
        .guessConfigurationPath (mainParseArguments args).configPath,
        .newSettingsCache (env.guessConfigurationPath (mainParseArguments args).configPath),
        .newLoggerThread, .setObjectName "logger",
        .newServerLogger (mainParseArguments args).logToConsole,
        .moveToThread, .loggerThreadStart, .startLog env.logfile,
        .qInstallMessageHandler (mainPhase1 env args).msgHandler] := by
    rw [mainPhase1_eq]
    simp [List.filter_cons, Event.isDiagnostic]
  rw [h5]
  cases (mainParseArguments args).testRandom <;>
    cases (mainParseArguments args).testHashFunction <;>
    cases env.initServer <;>
    simp only [if_true, if_false, Bool.false_eq_true, List.filter_append, h1, h2, h4,
      List.filter_nil, List.append_nil] <;>
    simp [List.filter_cons, Event.isDiagnostic]

/-! ## Command line -/

theorem indexOfFrom_not_mem (s : String) (l : List String) (i : Int) (h : s ∉ l) :
    indexOfFrom s l i = -1 := by
  induction l generalizing i with
  | nil => rfl
  | cons x xs ih =>
    have hx : x ≠ s := fun e => h (by simp [e])
    have hxs : s ∉ xs := fun e => h (by simp [e])
    simp [indexOfFrom, hx, ih _ hxs]

theorem indexOfFrom_first (s : String) (pre rest : List String) (i : Int) (h : s ∉ pre) :
    indexOfFrom s (pre ++ s :: rest) i = i + pre.length := by
  induction pre generalizing i with
  | nil => simp [indexOfFrom]
  | cons x xs ih =>
    have hx : x ≠ s := fun e => h (by simp [e])
    have hxs : s ∉ xs := fun e => h (by simp [e])
    simp [indexOfFrom, hx, ih _ hxs]
    ring

/-- The three boolean flags are membership tests. -/
theorem mainParseArguments_flags (args : List String) :
    ((mainParseArguments args).testRandom = true ↔ "--test-random" ∈ args) ∧
    ((mainParseArguments args).testHashFunction = true ↔ "--test-hash" ∈ args) ∧
    ((mainParseArguments args).logToConsole = true ↔ "--log-to-console" ∈ args) :=
  ⟨by simp [mainParseArguments], by simp [mainParseArguments], by simp [mainParseArguments]⟩

/-- C4. Each of the three boolean flags is set exactly when its exact string
is among the arguments (so it depends neither on positions nor on the other
arguments: reordering the list changes no flag). The path handed to the
configuration resolver is the argument right after the first `--config` when
there is one, and the empty string when `--config` is absent or its first
occurrence is the last argument. -/
theorem main_cli_parsing {σ χ : Type} (env : Env σ χ) (args : List String) :
    ((mainParseArguments args).testRandom = true ↔ "--test-random" ∈ args) ∧
    ((mainParseArguments args).testHashFunction = true ↔ "--test-hash" ∈ args) ∧
    ((mainParseArguments args).logToConsole = true ↔ "--log-to-console" ∈ args) ∧
    (∀ args2 : List String, args.Perm args2 →
      (mainParseArguments args2).testRandom = (mainParseArguments args).testRandom ∧
      (mainParseArguments args2).testHashFunction =
        (mainParseArguments args).testHashFunction ∧
      (mainParseArguments args2).logToConsole = (mainParseArguments args).logToConsole) ∧
    (∀ (pre post : List String) (next : String),
      args = pre ++ "--config" :: next :: post → "--config" ∉ pre →
      (mainParseArguments args).configPath = next) ∧
    (∀ pre : List String, args = pre ++ ["--config"] → "--config" ∉ pre →
      (mainParseArguments args).configPath = "") ∧
    ("--config" ∉ args → (mainParseArguments args).configPath = "") ∧
    resolverArguments (main env args).2.trace = [(mainParseArguments args).configPath] := by
  refine ⟨by simp [mainParseArguments], by simp [mainParseArguments],
    by simp [mainParseArguments], ?_, ?_, ?_, ?_, ?_⟩
  · intro args2 hp
    simp only [mainParseArguments]
    refine ⟨?_, ?_, ?_⟩ <;>
      · rw [Bool.eq_iff_iff]
        simp [hp.mem_iff]
  · intro pre post next hargs hpre
    subst hargs
    have hi := indexOfFrom_first "--config" pre (next :: post) 0 hpre
    have hlen : (0 : Int) + (pre.length : Int) + 1 = ((pre.length + 1 : Nat) : Int) := by
      push_cast; ring
    simp only [mainParseArguments, indexOf, hi]
    rw [if_pos]
    · rw [hlen, Int.toNat_ofNat]
      simp only [List.getD_eq_getElem?_getD]
      rw [List.getElem?_append_right (by omega)]
      simp
    · constructor
      · omega
      · simp only [List.length_append, List.length_cons]
        push_cast
        omega
  · intro pre hargs hpre
    subst hargs
    have hi := indexOfFrom_first "--config" pre [] 0 hpre
    simp only [mainParseArguments, indexOf, hi]
    rw [if_neg]
    simp only [List.length_append, List.length_cons, List.length_nil]
    push_cast
    omega
  · intro h
    simp [mainParseArguments, indexOf, indexOfFrom_not_mem _ _ _ h]
  · unfold resolverArguments
    rw [filterMap_filter_diagnostic _ (by intro e he; cases e <;> simp_all [Event.isDiagnostic]),
      main_skeleton]
    cases env.initServer <;> simp

/-- Witness for C4: `--config x.ini` between two flags. -/
theorem main_cli_parsing_witness :
    ["servatrice", "--test-hash", "--config", "x.ini", "--log-to-console"] =
        ["servatrice", "--test-hash"] ++ "--config" :: "x.ini" :: ["--log-to-console"] ∧
      "--config" ∉ ["servatrice", "--test-hash"] ∧
      (mainParseArguments
        ["servatrice", "--test-hash", "--config", "x.ini", "--log-to-console"]).configPath =
        "x.ini" :=
  ⟨rfl, by decide,
    (main_cli_parsing (demoEnv true 0)
      ["servatrice", "--test-hash", "--config", "x.ini", "--log-to-console"]).2.2.2.2.1
      ["servatrice", "--test-hash"] ["--log-to-console"] "x.ini" rfl (by decide)⟩

/-! ## Diagnostic redirection -/

/-- C1 (amended). The first message handler is installed right after the
blocking `startLog` call, and it is the opposite of what the flag's name
suggests: with `--log-to-console` among the arguments `main` installs
`myMessageOutput`, which only passes the message to the logger; without the
flag it installs `myMessageOutput2`, which passes the message to the logger and
then writes it to `std::cerr`. -/
theorem phase1_handler_by_flag {σ χ : Type} (env : Env σ χ) (args : List String) :
    (∃ pre : List Event, (mainPhase1 env args).trace =
      pre ++ [.startLog env.logfile,
        .qInstallMessageHandler (mainPhase1 env args).msgHandler]) ∧
    (mainPhase1 env args).trace <+: (main env args).2.trace ∧
    ("--log-to-console" ∈ args →
      (mainPhase1 env args).msgHandler = .myMessageOutput ∧
      ∀ msg : String, (mainPhase1 env args).msgHandler.events msg = [.logMessage msg]) ∧
    ("--log-to-console" ∉ args →
      (mainPhase1 env args).msgHandler = .myMessageOutput2 ∧
      ∀ msg : String, (mainPhase1 env args).msgHandler.events msg =
        [.logMessage msg, .cerr (msg ++ "\n")]) := by
  have hflag := (mainParseArguments_flags args).2.2
  refine ⟨?_, ?_, ?_, ?_⟩
  · refine ⟨[.setOrganizationName "Cockatrice", .setApplicationName "Servatrice",
      .qRegisterMetaType "QList<int>",
      .guessConfigurationPath (mainParseArguments args).configPath,
      .qtDefaultOutput (env.qDebug ["Using configuration file: ",
        env.guessConfigurationPath (mainParseArguments args).configPath]),
      .newSettingsCache (env.guessConfigurationPath (mainParseArguments args).configPath),
      .newLoggerThread, .setObjectName "logger",
      .newServerLogger (mainParseArguments args).logToConsole,
      .moveToThread, .loggerThreadStart], ?_⟩
    rw [mainPhase1_eq]
    rfl
  · rw [main_eq, mainBootstrap_eq]
    simp only [List.append_assoc]
    exact List.prefix_append _ _
  · intro h
    have hl := hflag.2 h
    simp [mainPhase1_eq, hl]
  · intro h
    have hl : (mainParseArguments args).logToConsole = false := by
      cases hc : (mainParseArguments args).logToConsole
      · rfl
      · exact absurd (hflag.1 hc) h
    simp [mainPhase1_eq, hl]

/-- Witness for C1 (amended): with the flag the handler does not write to the
console. -/
theorem phase1_handler_by_flag_witness :
    "--log-to-console" ∈ ["servatrice", "--log-to-console"] ∧
      (mainPhase1 (demoEnv true 0) ["servatrice", "--log-to-console"]).msgHandler =
        .myMessageOutput :=
  ⟨by decide,
    ((phase1_handler_by_flag (demoEnv true 0) ["servatrice", "--log-to-console"]).2.2.1
      (by decide)).1⟩

/-- C1 as stated fails in both directions: with `--log-to-console` the handler
installed first writes nothing to `std::cerr`, and without the flag it does. -/
theorem phase1_handler_counterexample :
    "--log-to-console" ∈ ["servatrice", "--log-to-console"] ∧
      cerrOutput ((mainPhase1 (demoEnv true 0)
        ["servatrice", "--log-to-console"]).msgHandler.events "hello") = [] ∧
      "--log-to-console" ∉ ["servatrice"] ∧
      cerrOutput ((mainPhase1 (demoEnv true 0) ["servatrice"]).msgHandler.events "hello") =
        ["hello\n"] := by
  refine ⟨by decide, by decide, by decide, by decide⟩

/-- C2. When `initServer()` returns true, `main` installs `myMessageOutput`
before the event loop; every message of the event loop is passed to the logger
exactly once and none is written to the console; no handler is installed
afterwards, so `myMessageOutput` is still in force when `main` returns. When
`initServer()` returns false the only installation is the first one and its
handler stays in force. -/
theorem phase2_handler_logger_only {σ χ : Type} (env : Env σ χ) (args : List String) :
    (env.initServer = true →
      ∃ pre post : List Event,
        (main env args).2.trace =
          pre ++ [.qInstallMessageHandler .myMessageOutput] ++
            env.loopMessages.map .logMessage ++ [.appExec env.exec] ++ post ∧
        installs post = [] ∧
        post.getLast? = some (.mainReturn (main env args).1) ∧
        installs (main env args).2.trace =
          [(mainPhase1 env args).msgHandler, .myMessageOutput] ∧
        (main env args).2.msgHandler = .myMessageOutput) ∧
    (∀ (msg : String) (st : ProcessState),
      (myMessageOutput msg st).trace = st.trace ++ [.logMessage msg]) ∧
    (env.initServer = false →
      installs (main env args).2.trace = [(mainPhase1 env args).msgHandler] ∧
      execRuns (main env args).2.trace = [] ∧
      (main env args).2.msgHandler = (mainPhase1 env args).msgHandler) := by
  have hi : ∀ e : Event, e.isDiagnostic = true →
      (match e with
        | .qInstallMessageHandler h => some h
        | _ => none) = none := by
    intro e he; cases e <;> simp_all [Event.isDiagnostic]
  have hx : ∀ e : Event, e.isDiagnostic = true →
      (match e with
        | .appExec r => some r
        | _ => none) = none := by
    intro e he; cases e <;> simp_all [Event.isDiagnostic]
  refine ⟨?_, ?_, ?_⟩
  · intro hok
    refine ⟨(mainBootstrap env args).trace ++ [.newServatrice, .connectDestroyedToQuit] ++
        (env.initMessages.map (mainPhase1 env args).msgHandler.events).flatten ++
        [.initServer true, .cerr "-------------------------\n", .cerr "Server initialized.\n"],
      [.cerr "Server quit.\n", .cerr "-------------------------\n",
        .deleteRng, .deleteSettingsCache, .loggerDeleteLater, .loggerThreadWait,
        .deleteLoggerThread, .shutdownProtobufLibrary, .mainReturn env.exec], ?_, ?_, ?_, ?_, ?_⟩
    · rw [main_eq]; simp [hok]
    · simp [installs]
    · rw [main_eq]; simp [hok]
    · unfold installs
      rw [filterMap_filter_diagnostic _ hi, main_skeleton]
      simp [hok]
    · rw [main_eq]; simp [hok]
  · intro msg st; rfl
  · intro hok
    refine ⟨?_, ?_, ?_⟩
    · unfold installs
      rw [filterMap_filter_diagnostic _ hi, main_skeleton]
      simp [hok]
    · unfold execRuns
      rw [filterMap_filter_diagnostic _ hx, main_skeleton]
      simp [hok]
    · rw [main_eq]; simp [hok]

/-- Witness for C2: a run with `--log-to-console` whose server initialises. -/
theorem phase2_handler_logger_only_witness :
    (demoEnv true 0).initServer = true ∧
      (main (demoEnv true 0) ["servatrice", "--log-to-console"]).2.msgHandler =
        .myMessageOutput := by
  obtain ⟨_, _, _, _, _, _, h⟩ :=
    (phase2_handler_logger_only (demoEnv true 0) ["servatrice", "--log-to-console"]).1 rfl
  exact ⟨rfl, h⟩

/-! ## Exit status and teardown -/

/-- C3. When `initServer()` returns true the event loop runs exactly once and
`main` returns what it returned; when `initServer()` returns false the event
loop does not run and `main` returns 0. Either way the last actions of `main`
are the teardown, ending with the return. -/
theorem main_exit_status {σ χ : Type} (env : Env σ χ) (args : List String) :
    (env.initServer = true →
      execRuns (main env args).2.trace = [env.exec] ∧ (main env args).1 = env.exec) ∧
    (env.initServer = false →
      execRuns (main env args).2.trace = [] ∧ (main env args).1 = 0) ∧
    [.deleteRng, .deleteSettingsCache, .loggerDeleteLater, .loggerThreadWait,
      .deleteLoggerThread, .shutdownProtobufLibrary, .mainReturn (main env args).1] <:+
      (main env args).2.trace := by
  have hx : ∀ e : Event, e.isDiagnostic = true →
      (match e with
        | .appExec r => some r
        | _ => none) = none := by
    intro e he; cases e <;> simp_all [Event.isDiagnostic]
  refine ⟨?_, ?_, ?_⟩
  · intro hok
    constructor
    · unfold execRuns
      rw [filterMap_filter_diagnostic _ hx, main_skeleton]
      simp [hok]
    · rw [main_eq]; simp [hok]
  · intro hok
    constructor
    · unfold execRuns
      rw [filterMap_filter_diagnostic _ hx, main_skeleton]
      simp [hok]
    · rw [main_eq]; simp [hok]
  · rw [main_eq]
    exact List.suffix_append _ _

/-- Witness for C3: the event loop returns 3 and so does `main`. -/
theorem main_exit_status_witness :
    (demoEnv true 3).initServer = true ∧ (main (demoEnv true 3) ["servatrice"]).1 = 3 :=
  ⟨rfl, ((main_exit_status (demoEnv true 3) ["servatrice"]).1 rfl).2⟩

/-- The teardown actions of a trace are among its non-diagnostic actions. -/
theorem filter_teardown_diagnostic (l : List Event) :
    l.filter Event.isTeardown = (l.filter (fun e => !e.isDiagnostic)).filter Event.isTeardown := by
  rw [List.filter_filter]
  congr 1
  funext e
  cases e <;> rfl

/-- C8. On every path the teardown actions of `main` are, in this order and
each once: release the RNG, release the settings source, request the logger's
shutdown, wait for the logger thread, release the logger thread, call the
protobuf shutdown hook, return the exit status; they are the last actions of
`main`, and the thread is released only after the wait. -/
theorem main_teardown_sequence {σ χ : Type} (env : Env σ χ) (args : List String) :
    (main env args).2.trace.filter Event.isTeardown =
      [.deleteRng, .deleteSettingsCache, .loggerDeleteLater, .loggerThreadWait,
        .deleteLoggerThread, .shutdownProtobufLibrary, .mainReturn (main env args).1] ∧
    [.deleteRng, .deleteSettingsCache, .loggerDeleteLater, .loggerThreadWait,
      .deleteLoggerThread, .shutdownProtobufLibrary, .mainReturn (main env args).1] <:+
      (main env args).2.trace := by
  constructor
  · rw [filter_teardown_diagnostic, main_skeleton, main_eq]
    cases env.initServer <;> simp [List.filter_cons, Event.isTeardown]
  · rw [main_eq]
    exact List.suffix_append _ _

/-- C9 as stated fails: in the run without flags whose server fails to
initialise, the release order is not the reverse of the construction order. -/
theorem release_order_counterexample :
    (main (demoEnv false 0) ["servatrice"]).2.trace.filterMap releases ≠
      ((main (demoEnv false 0) ["servatrice"]).2.trace.filterMap constructs).reverse := by
  decide

/-- C9 (amended). `main` constructs the settings source, the logger thread,
the logger and the RNG engine in this order, and releases the RNG engine, the
settings source, the logger (by the shutdown request) and the logger thread in
this order; the logger thread is released last, after the wait on it. -/
theorem main_release_order {σ χ : Type} (env : Env σ χ) (args : List String) :
    (main env args).2.trace.filterMap constructs =
      [.settingsCache, .loggerThread, .logger, .rng] ∧
    (main env args).2.trace.filterMap releases =
      [.rng, .settingsCache, .logger, .loggerThread] ∧
    (main env args).2.trace.filter
        (fun e => (releases e).isSome || decide (e = .loggerThreadWait)) =
      [.deleteRng, .deleteSettingsCache, .loggerDeleteLater, .loggerThreadWait,
        .deleteLoggerThread] := by
  have hc : ∀ e : Event, e.isDiagnostic = true → constructs e = none := by
    intro e he; cases e <;> simp_all [Event.isDiagnostic, constructs]
  have hr : ∀ e : Event, e.isDiagnostic = true → releases e = none := by
    intro e he; cases e <;> simp_all [Event.isDiagnostic, releases]
  have hw : ∀ l : List Event,
      l.filter (fun e => (releases e).isSome || decide (e = .loggerThreadWait)) =
        (l.filter (fun e => !e.isDiagnostic)).filter
          (fun e => (releases e).isSome || decide (e = .loggerThreadWait)) := by
    intro l
    rw [List.filter_filter]
    congr 1
    funext e
    cases e <;> simp [releases, Event.isDiagnostic]
  refine ⟨?_, ?_, ?_⟩
  · rw [filterMap_filter_diagnostic _ hc, main_skeleton]
    cases env.initServer <;> simp [constructs]
  · rw [filterMap_filter_diagnostic _ hr, main_skeleton]
    cases env.initServer <;> simp [releases]
  · rw [hw, main_skeleton]
    cases env.initServer <;> simp [List.filter_cons, releases]

/-! ## RNG self-test -/

theorem intRange_widths :
    intRange testRNG.minMax testRNG.maxMax = [2, 3, 4, 5, 6, 7, 8, 9, 10] := by
  decide

theorem rngRequests_map_cerr {α : Type} (g : α → String) (l : List α) :
    rngRequests (l.map fun a => Event.cerr (g a)) = [] := by
  induction l with
  | nil => rfl
  | cons a l ih => simp [rngRequests]

theorem testRNG_requests {σ χ : Type} (rng : RNG σ χ) (dbl : Doubles χ) (s : σ)
    (st : ProcessState) :
    rngRequests (testRNG rng dbl s st).st.trace =
      rngRequests st.trace ++
        [(1000000, 1, 2), (1500000, 1, 3), (2000000, 1, 4), (2500000, 1, 5), (3000000, 1, 6),
          (3500000, 1, 7), (4000000, 1, 8), (4500000, 1, 9), (5000000, 1, 10)] := by
  simp only [testRNG, intRange_widths, List.foldl_cons, List.foldl_nil, foldl_emit]
  simp only [testRNG.sample, emit_trace]
  simp [rngRequests, List.filterMap_append, wrap32, testRNG.n, testRNG.min, testRNG.minMax]

/-- C5. `testRNG` asks the RNG once for every width `w` from 2 to 10, in this
order and for nothing else, each time for `n * w` samples from `[1, w]` with
`n = 500000`; the 32-bit product does not overflow. For an RNG whose
`makeNumbersVector(k, min, max)` returns `max - min + 1` counts that sum to
`k`, the histogram stored for width `w` has `w` buckets that sum to `n * w`. -/
theorem testRNG_histograms {σ χ : Type} (rng : RNG σ χ) (dbl : Doubles χ) (s : σ)
    (st : ProcessState)
    (hrng : ∀ (s : σ) (k lo hi : Int), 0 ≤ k → lo ≤ hi →
      ((rng.makeNumbersVector s k lo hi).1.length : Int) = hi - lo + 1 ∧
      (rng.makeNumbersVector s k lo hi).1.sum = k) :
    rngRequests (testRNG rng dbl s st).st.trace =
      rngRequests st.trace ++ (intRange 2 10).map (fun w => (500000 * w, 1, w)) ∧
    (intRange 2 10).length = 9 ∧
    (∀ w : Int, 2 ≤ w → w ≤ 10 →
      wrap32 (testRNG.n * wrap32 (wrap32 (w - testRNG.min) + 1)) = 500000 * w) ∧
    (testRNG rng dbl s st).numbers.length = 9 ∧
    (∀ w : Int, 2 ≤ w → w ≤ 10 →
      (((testRNG rng dbl s st).numbers.getD (w - 2).toNat []).length : Int) = w ∧
      ((testRNG rng dbl s st).numbers.getD (w - 2).toNat []).sum = 500000 * w) := by
  refine ⟨?_, by decide, ?_, ?_, ?_⟩
  · rw [testRNG_requests]
    congr 1
  · intro w h2 h10
    interval_cases w <;> decide
  · simp only [testRNG, intRange_widths, List.foldl_cons, List.foldl_nil, foldl_emit]
    simp only [testRNG.sample]
    simp [wrap32, testRNG.n, testRNG.min, testRNG.minMax, testRNG.maxMax]
  · intro w h2 h10
    simp only [testRNG, intRange_widths, List.foldl_cons, List.foldl_nil, foldl_emit]
    simp only [testRNG.sample]
    simp [wrap32, testRNG.n, testRNG.min, testRNG.minMax, testRNG.maxMax]
    interval_cases w
    all_goals simp
    all_goals
      constructor
      · refine ((hrng _ _ _ _ ?_ ?_).1).trans ?_ <;> norm_num
      · refine (hrng _ _ _ _ ?_ ?_).2 <;> norm_num

/-- Witness for C5: an RNG that puts every sample into the first bucket. -/
theorem testRNG_histograms_witness :
    (∀ (s : Unit) (k lo hi : Int), 0 ≤ k → lo ≤ hi →
      ((((demoEnv true 0).rng.makeNumbersVector s k lo hi).1.length : Nat) : Int) =
        hi - lo + 1 ∧
      ((demoEnv true 0).rng.makeNumbersVector s k lo hi).1.sum = k) ∧
    ((testRNG (demoEnv true 0).rng (demoEnv true 0).dbl () ProcessState.init).numbers.getD
      (3 - 2 : Int).toNat []).sum = 500000 * 3 := by
  have hrng : ∀ (s : Unit) (k lo hi : Int), 0 ≤ k → lo ≤ hi →
      ((((demoEnv true 0).rng.makeNumbersVector s k lo hi).1.length : Nat) : Int) =
        hi - lo + 1 ∧
      ((demoEnv true 0).rng.makeNumbersVector s k lo hi).1.sum = k := by
    intro s k lo hi _ hle
    simp only [demoEnv, List.length_cons, List.length_replicate, List.sum_cons,
      List.sum_replicate, smul_zero, add_zero, and_true]
    push_cast
    rw [Int.toNat_of_nonneg (by omega)]
  exact ⟨hrng,
    ((testRNG_histograms (demoEnv true 0).rng (demoEnv true 0).dbl () ProcessState.init
      hrng).2.2.2.2 3 (by decide) (by decide)).2⟩

/-! ## Bootstrap sequence -/

theorem testRNG_hashCalls {σ χ : Type} (rng : RNG σ χ) (dbl : Doubles χ) (s : σ)
    (st : ProcessState) :
    hashCalls (testRNG rng dbl s st).st.trace = hashCalls st.trace := by
  have hm : ∀ (g : Int → String) (l : List Int),
      hashCalls (l.map fun a => Event.cerr (g a)) = [] := by
    intro g l
    induction l with
    | nil => rfl
    | cons a l ih => simp [hashCalls]
  simp only [testRNG, intRange_widths, List.foldl_cons, List.foldl_nil, foldl_emit]
  simp only [testRNG.sample, emit_trace]
  simp [hashCalls, List.filterMap_append]

theorem testHash_calls (a b : Int) (st : ProcessState) :
    hashCalls (testHash a b st).trace =
        hashCalls st.trace ++ List.replicate testHash.n ("aaaaaa", "aaaaaaaaaaaaaaaa") ∧
      rngRequests (testHash a b st).trace = rngRequests st.trace := by
  have hm : ∀ l : List Nat,
      (l.map fun _ => Event.computeHash "aaaaaa" "aaaaaaaaaaaaaaaa").filterMap
        (fun e => match e with
          | .computeHash pw salt => some (pw, salt)
          | _ => none) = List.replicate l.length ("aaaaaa", "aaaaaaaaaaaaaaaa") := by
    intro l
    induction l with
    | nil => rfl
    | cons a l ih => simp [ih, List.replicate_succ]
  have hn : ∀ l : List Nat,
      (l.map fun _ => Event.computeHash "aaaaaa" "aaaaaaaaaaaaaaaa").filterMap
        (fun e => match e with
          | .makeNumbersVector k lo hi => some (k, lo, hi)
          | _ => none) = [] := by
    intro l
    induction l with
    | nil => rfl
    | cons a l ih => simp [ih]
  constructor
  · simp only [testHash, foldl_emit, emit_trace, hashCalls, List.filterMap_append, hm,
      List.length_range]
    simp only [List.filterMap_cons, List.filterMap_nil, List.append_nil, List.append_assoc,
      List.nil_append]
  · simp only [testHash, foldl_emit, emit_trace, rngRequests, List.filterMap_append, hn]
    simp

theorem handler_events_no_requests (h : MsgHandler) (msgs : List String) :
    rngRequests (msgs.map h.events).flatten = [] ∧
      hashCalls (msgs.map h.events).flatten = [] := by
  induction msgs with
  | nil => exact ⟨rfl, rfl⟩
  | cons m ms ih =>
    obtain ⟨h1, h2⟩ := ih
    simp only [rngRequests, hashCalls] at h1 h2 ⊢
    cases h <;> simp [List.filterMap_append, h1, h2]

theorem main_trace_requests {σ χ : Type} (env : Env σ χ) (args : List String) :
    rngRequests (main env args).2.trace =
        (if (mainParseArguments args).testRandom then
          [(1000000, 1, 2), (1500000, 1, 3), (2000000, 1, 4), (2500000, 1, 5),
            (3000000, 1, 6), (3500000, 1, 7), (4000000, 1, 8), (4500000, 1, 9),
            (5000000, 1, 10)]
        else []) ∧
      hashCalls (main env args).2.trace =
        (if (mainParseArguments args).testHashFunction then
          List.replicate testHash.n ("aaaaaa", "aaaaaaaaaaaaaaaa")
        else []) := by
  have r1 : rngRequests (testRNGEvents env) = _ :=
    testRNG_requests env.rng env.dbl env.rngInit ProcessState.init
  have r2 : hashCalls (testRNGEvents env) = _ :=
    testRNG_hashCalls env.rng env.dbl env.rngInit ProcessState.init
  have r3 := testHash_calls env.hashStart env.hashEnd ProcessState.init
  have r4 := handler_events_no_requests (mainPhase1 env args).msgHandler env.initMessages
  have r5 : rngRequests (env.loopMessages.map Event.logMessage) = [] ∧
      hashCalls (env.loopMessages.map Event.logMessage) = [] := by
    induction env.loopMessages with
    | nil => exact ⟨rfl, rfl⟩
    | cons m ms ih => simp [rngRequests, hashCalls]
  have r3a : rngRequests (testHashEvents env) = [] := by
    have := r3.2
    simpa [ProcessState.init, rngRequests] using this
  have r3b : hashCalls (testHashEvents env) =
      List.replicate testHash.n ("aaaaaa", "aaaaaaaaaaaaaaaa") := by
    have := r3.1
    simpa [ProcessState.init, hashCalls] using this
  have r1a : rngRequests (testRNGEvents env) =
      [(1000000, 1, 2), (1500000, 1, 3), (2000000, 1, 4), (2500000, 1, 5),
        (3000000, 1, 6), (3500000, 1, 7), (4000000, 1, 8), (4500000, 1, 9),
        (5000000, 1, 10)] := by
    simpa [ProcessState.init, rngRequests] using r1
  have r2a : hashCalls (testRNGEvents env) = [] := by
    simpa [ProcessState.init, hashCalls] using r2
  have app1 : ∀ a b : List Event, rngRequests (a ++ b) = rngRequests a ++ rngRequests b :=
    fun a b => List.filterMap_append _ _ _
  have app2 : ∀ a b : List Event, hashCalls (a ++ b) = hashCalls a ++ hashCalls b :=
    fun a b => List.filterMap_append _ _ _
  have p1 : rngRequests (mainPhase1 env args).trace = [] ∧
      hashCalls (mainPhase1 env args).trace = [] := by
    rw [mainPhase1_eq]
    constructor <;> rfl
  rw [main_eq, mainBootstrap_eq]
  constructor
  · cases (mainParseArguments args).testRandom <;>
      cases (mainParseArguments args).testHashFunction <;>
      cases env.initServer <;>
      simp only [if_true, if_false, Bool.false_eq_true, app1, r1a, r3a, r4.1, r5.1, p1.1,
        List.append_nil, List.nil_append] <;>
      rfl
  · cases (mainParseArguments args).testRandom <;>
      cases (mainParseArguments args).testHashFunction <;>
      cases env.initServer <;>
      simp only [if_true, if_false, Bool.false_eq_true, app2, r2a, r3b, r4.2, r5.2, p1.2,
        List.append_nil, List.nil_append] <;>
      simp only [hashCalls, List.filterMap_cons, List.filterMap_nil, List.append_nil,
        List.nil_append]

/-- C10. The start-up actions of `main` occur in this order: resolve the
configuration source; construct and start the logger and complete the blocking
`startLog` call; install the first message handler; install the three signal
handlers and ignore the broken-pipe signal; construct the RNG engine;
initialise the password hasher; run `testRNG` exactly when `--test-random` is
given; run `testHash` exactly when `--test-hash` is given; construct the server
and call `initServer()`, each exactly once. No message handler is installed
before `startLog` has completed. -/
theorem main_bootstrap_sequence {σ χ : Type} (env : Env σ χ) (args : List String) :
    (∃ tail : List Event, (main env args).2.trace =
      [.setOrganizationName "Cockatrice", .setApplicationName "Servatrice",
        .qRegisterMetaType "QList<int>",
        .guessConfigurationPath (mainParseArguments args).configPath,
        .qtDefaultOutput (env.qDebug ["Using configuration file: ",
          env.guessConfigurationPath (mainParseArguments args).configPath]),
        .newSettingsCache (env.guessConfigurationPath (mainParseArguments args).configPath),
        .newLoggerThread, .setObjectName "logger",
        .newServerLogger (mainParseArguments args).logToConsole,
        .moveToThread, .loggerThreadStart, .startLog env.logfile,
        .qInstallMessageHandler (mainPhase1 env args).msgHandler,
        .sigaction env.sigs.SIGHUP (.handler .hupSignalHandler ⟨true, false⟩),
        .sigaction env.sigs.SIGSEGV (.handler .sigSegvHandler ⟨false, true⟩),
        .sigaction env.sigs.SIGABRT (.handler .sigSegvHandler ⟨false, true⟩),
        .signal env.sigs.SIGPIPE .SIG_IGN,
        .newRNG, .cerr ("Servatrice " ++ env.version ++ " starting.\n"),
        .cerr "-------------------------\n", .passwordHasherInit] ++
      (if "--test-random" ∈ args then testRNGEvents env else []) ++
      (if "--test-hash" ∈ args then testHashEvents env else []) ++
      [.newServatrice, .connectDestroyedToQuit] ++
      (env.initMessages.map (mainPhase1 env args).msgHandler.events).flatten ++
      [.initServer env.initServer] ++ tail) ∧
    rngRequests (main env args).2.trace =
      (if "--test-random" ∈ args then (intRange 2 10).map (fun w => (500000 * w, 1, w))
        else []) ∧
    hashCalls (main env args).2.trace =
      (if "--test-hash" ∈ args then
        List.replicate testHash.n ("aaaaaa", "aaaaaaaaaaaaaaaa") else []) ∧
    (main env args).2.trace.count .newServatrice = 1 ∧
    serverInits (main env args).2.trace = [env.initServer] ∧
    (∀ (pre post : List Event) (h : MsgHandler),
      (main env args).2.trace = pre ++ .qInstallMessageHandler h :: post →
      .startLog env.logfile ∈ pre) := by
  obtain ⟨f1, f2, _⟩ := mainParseArguments_flags args
  have g1 : (mainParseArguments args).testRandom = decide ("--test-random" ∈ args) := by
    rw [Bool.eq_iff_iff, f1]; simp
  have g2 : (mainParseArguments args).testHashFunction = decide ("--test-hash" ∈ args) := by
    rw [Bool.eq_iff_iff, f2]; simp
  have hs : ∀ e : Event, e.isDiagnostic = true →
      (match e with
        | .initServer ok => some ok
        | _ => none) = none := by
    intro e he; cases e <;> simp_all [Event.isDiagnostic]
  have htr : ∃ tail : List Event, (main env args).2.trace =
      [.setOrganizationName "Cockatrice", .setApplicationName "Servatrice",
        .qRegisterMetaType "QList<int>",
        .guessConfigurationPath (mainParseArguments args).configPath,
        .qtDefaultOutput (env.qDebug ["Using configuration file: ",
          env.guessConfigurationPath (mainParseArguments args).configPath]),
        .newSettingsCache (env.guessConfigurationPath (mainParseArguments args).configPath),
        .newLoggerThread, .setObjectName "logger",
        .newServerLogger (mainParseArguments args).logToConsole,
        .moveToThread, .loggerThreadStart, .startLog env.logfile,
        .qInstallMessageHandler (mainPhase1 env args).msgHandler,
        .sigaction env.sigs.SIGHUP (.handler .hupSignalHandler ⟨true, false⟩),
        .sigaction env.sigs.SIGSEGV (.handler .sigSegvHandler ⟨false, true⟩),
        .sigaction env.sigs.SIGABRT (.handler .sigSegvHandler ⟨false, true⟩),
        .signal env.sigs.SIGPIPE .SIG_IGN,
        .newRNG, .cerr ("Servatrice " ++ env.version ++ " starting.\n"),
        .cerr "-------------------------\n", .passwordHasherInit] ++
      (if "--test-random" ∈ args then testRNGEvents env else []) ++
      (if "--test-hash" ∈ args then testHashEvents env else []) ++
      [.newServatrice, .connectDestroyedToQuit] ++
      (env.initMessages.map (mainPhase1 env args).msgHandler.events).flatten ++
      [.initServer env.initServer] ++ tail := by
    refine ⟨(if env.initServer then
        [.cerr "-------------------------\n", .cerr "Server initialized.\n",
          .qInstallMessageHandler .myMessageOutput] ++
        env.loopMessages.map .logMessage ++
        [.appExec env.exec, .cerr "Server quit.\n", .cerr "-------------------------\n"]
      else []) ++
      [.deleteRng, .deleteSettingsCache, .loggerDeleteLater, .loggerThreadWait,
        .deleteLoggerThread, .shutdownProtobufLibrary,
        .mainReturn (if env.initServer then env.exec else 0)], ?_⟩
    rw [main_eq, mainBootstrap_eq, g1, g2]
    have hp : (mainPhase1 env args).trace = _ := congrArg ProcessState.trace (mainPhase1_eq env args)
    rw [hp]
    simp only [decide_eq_true_eq, List.append_assoc, List.cons_append, List.nil_append,
      ProcessState.msgHandler]
    rw [mainPhase1_eq]
  refine ⟨htr, ?_, ?_, ?_, ?_, ?_⟩
  · rw [(main_trace_requests env args).1, g1]
    by_cases h : "--test-random" ∈ args
    · simp only [h, decide_True, if_true]
      decide
    · simp only [h, decide_False, if_false, Bool.false_eq_true]
  · rw [(main_trace_requests env args).2, g2]
    by_cases h : "--test-hash" ∈ args <;> simp only [h, decide_True, decide_False, if_true,
      if_false, Bool.false_eq_true]
  · rw [← List.count_filter (p := fun e => !e.isDiagnostic) (by rfl), main_skeleton]
    cases env.initServer <;> simp [List.count_cons]
  · unfold serverInits
    rw [filterMap_filter_diagnostic _ hs, main_skeleton]
    cases env.initServer <;> simp
  · intro pre post h heq
    obtain ⟨tail, ht⟩ := htr
    rw [ht] at heq
    simp only [List.append_assoc, List.cons_append, List.nil_append] at heq
    iterate 12
      rcases pre with _ | ⟨p1, pre⟩
      · simp at heq
      simp only [List.cons_append, List.cons.injEq] at heq
      obtain ⟨rfl, heq⟩ := heq
    simp

/-- Witness for C10: in the run without flags the handler installation comes
after the `startLog` call. -/
theorem main_bootstrap_sequence_witness :
    (main (demoEnv false 0) ["servatrice"]).2.trace =
        [.setOrganizationName "Cockatrice", .setApplicationName "Servatrice",
          .qRegisterMetaType "QList<int>", .guessConfigurationPath "",
          .qtDefaultOutput "Using configuration file: servatrice.ini",
          .newSettingsCache "servatrice.ini", .newLoggerThread, .setObjectName "logger",
          .newServerLogger false, .moveToThread, .loggerThreadStart,
          .startLog "server.log"] ++
        .qInstallMessageHandler .myMessageOutput2 ::
        [.sigaction 1 (.handler .hupSignalHandler ⟨true, false⟩),
          .sigaction 11 (.handler .sigSegvHandler ⟨false, true⟩),
          .sigaction 6 (.handler .sigSegvHandler ⟨false, true⟩),
          .signal 13 .SIG_IGN, .newRNG, .cerr "Servatrice test starting.\n",
          .cerr "-------------------------\n", .passwordHasherInit,
          .newServatrice, .connectDestroyedToQuit, .logMessage "init", .cerr "init\n",
          .initServer false, .deleteRng, .deleteSettingsCache, .loggerDeleteLater,
          .loggerThreadWait, .deleteLoggerThread, .shutdownProtobufLibrary, .mainReturn 0] ∧
      Event.startLog (demoEnv false 0).logfile ∈
        [.setOrganizationName "Cockatrice", .setApplicationName "Servatrice",
          .qRegisterMetaType "QList<int>", .guessConfigurationPath "",
          .qtDefaultOutput "Using configuration file: servatrice.ini",
          .newSettingsCache "servatrice.ini", .newLoggerThread, .setObjectName "logger",
          .newServerLogger false, .moveToThread, .loggerThreadStart,
          .startLog "server.log"] := by
  have h : (main (demoEnv false 0) ["servatrice"]).2.trace =
      [.setOrganizationName "Cockatrice", .setApplicationName "Servatrice",
        .qRegisterMetaType "QList<int>", .guessConfigurationPath "",
        .qtDefaultOutput "Using configuration file: servatrice.ini",
        .newSettingsCache "servatrice.ini", .newLoggerThread, .setObjectName "logger",
        .newServerLogger false, .moveToThread, .loggerThreadStart,
        .startLog "server.log"] ++
      .qInstallMessageHandler .myMessageOutput2 ::
      [.sigaction 1 (.handler .hupSignalHandler ⟨true, false⟩),
        .sigaction 11 (.handler .sigSegvHandler ⟨false, true⟩),
        .sigaction 6 (.handler .sigSegvHandler ⟨false, true⟩),
        .signal 13 .SIG_IGN, .newRNG, .cerr "Servatrice test starting.\n",
        .cerr "-------------------------\n", .passwordHasherInit,
        .newServatrice, .connectDestroyedToQuit, .logMessage "init", .cerr "init\n",
        .initServer false, .deleteRng, .deleteSettingsCache, .loggerDeleteLater,
        .loggerThreadWait, .deleteLoggerThread, .shutdownProtobufLibrary, .mainReturn 0] := by
    decide
  exact ⟨h, (main_bootstrap_sequence (demoEnv false 0) ["servatrice"]).2.2.2.2.2 _ _ _ h⟩

/-! ## Single-shot interception of the fatal signals -/

theorem disposition_cons_eq (m : MsgHandler) (tbl : List (Int × Disposition))
    (pd : List Int) (t : List Event) (sig : Int) (d : Disposition) :
    ProcessState.disposition ⟨m, (sig, d) :: tbl, pd, t⟩ sig = d := by
  simp [ProcessState.disposition, List.find?_cons]

theorem disposition_cons_ne (m : MsgHandler) (tbl : List (Int × Disposition))
    (pd : List Int) (t : List Event) (k sig : Int) (d : Disposition) (h : k ≠ sig) :
    ProcessState.disposition ⟨m, (k, d) :: tbl, pd, t⟩ sig =
      ProcessState.disposition ⟨m, tbl, pd, t⟩ sig := by
  have hb : (k == sig) = false := by simpa using h
  simp [ProcessState.disposition, List.find?_cons, hb]

theorem deliver_hup_iterate (sigs : SignalNumbers) (st : ProcessState)
    (hdisp : st.disposition sigs.SIGHUP = .handler .hupSignalHandler ⟨true, false⟩) (n : Nat) :
    (deliver sigs sigs.SIGHUP)^[n] st =
      { st with trace := st.trace ++ List.replicate n (.hupSignalHandler sigs.SIGHUP) } := by
  induction n with
  | zero => simp
  | succ n ih =>
    rw [Function.iterate_succ_apply', ih]
    have hd2 : ProcessState.disposition
        { st with trace := st.trace ++ List.replicate n (.hupSignalHandler sigs.SIGHUP) }
        sigs.SIGHUP = .handler .hupSignalHandler ⟨true, false⟩ := hdisp
    simp only [deliver, hd2]
    simp [ProcessState.emit, List.replicate_succ']

/-- C7. Once `main` has installed the signal handlers, the segmentation-fault
and the abort signal are both armed with `sigSegvHandler`. The first delivery
of either runs the handler once, logging exactly one crash marker, and leaves
that signal with the default disposition; a further delivery of the same
signal, the handler's own re-raise included, takes the default action and logs
nothing. The hang-up signal stays bound to the logger's handler however often
it is delivered and never fires; the broken-pipe signal is ignored. -/
theorem fatal_signal_single_shot {σ χ : Type} (env : Env σ χ) (args : List String)
    (hd : env.sigs.Distinct) :
    (Armed (mainBootstrap env args) env.sigs.SIGSEGV ∧
      Armed (mainBootstrap env args) env.sigs.SIGABRT) ∧
    (∀ sig : Int, sig = env.sigs.SIGSEGV ∨ sig = env.sigs.SIGABRT →
      ∃ marker : String,
        (sig = env.sigs.SIGSEGV → marker = "CRASH: SIGSEGV") ∧
        (sig = env.sigs.SIGABRT → marker = "CRASH: SIGABRT") ∧
        (deliver env.sigs sig (mainBootstrap env args)).trace =
          (mainBootstrap env args).trace ++
            [.backtrace 40, .fprintfStderr ("Error: signal " ++ toString sig ++ ":\n"),
              .backtraceSymbolsFd, .logMessage marker, .loggerDeleteLater,
              .loggerThreadWait, .deleteLoggerThread, .raise sig] ∧
        (deliver env.sigs sig (mainBootstrap env args)).disposition sig = .SIG_DFL ∧
        Firing (deliver env.sigs sig (mainBootstrap env args)) sig ∧
        ¬ Armed (deliver env.sigs sig (mainBootstrap env args)) sig ∧
        (deliver env.sigs sig (deliver env.sigs sig (mainBootstrap env args))).trace =
          (deliver env.sigs sig (mainBootstrap env args)).trace ++ [.defaultAction sig] ∧
        ∀ fuel : Nat, ∃ st2 : ProcessState,
          signalArrives env.sigs (fuel + 1) sig (mainBootstrap env args) = some st2 ∧
          st2.trace = (deliver env.sigs sig (mainBootstrap env args)).trace ++
            [.defaultAction sig] ∧
          st2.pending = [] ∧ st2.disposition sig = .SIG_DFL ∧
          loggedMessages st2.trace =
            loggedMessages (mainBootstrap env args).trace ++ [marker] ∧
          handlerEntries st2.trace = handlerEntries (mainBootstrap env args).trace + 1) ∧
    (∀ n : Nat,
      ((deliver env.sigs env.sigs.SIGHUP)^[n] (mainBootstrap env args)).disposition
          env.sigs.SIGHUP = .handler .hupSignalHandler ⟨true, false⟩ ∧
      ¬ Firing ((deliver env.sigs env.sigs.SIGHUP)^[n] (mainBootstrap env args))
          env.sigs.SIGHUP ∧
      ¬ Armed ((deliver env.sigs env.sigs.SIGHUP)^[n] (mainBootstrap env args))
          env.sigs.SIGHUP ∧
      ((deliver env.sigs env.sigs.SIGHUP)^[n] (mainBootstrap env args)).trace =
        (mainBootstrap env args).trace ++
          List.replicate n (.hupSignalHandler env.sigs.SIGHUP)) ∧
    ((mainBootstrap env args).disposition env.sigs.SIGPIPE = .SIG_IGN ∧
      deliver env.sigs env.sigs.SIGPIPE (mainBootstrap env args) = mainBootstrap env args) ∧
    (main env args).2.sigTable = (mainBootstrap env args).sigTable := by
  have hlast : (main env args).2.sigTable = (mainBootstrap env args).sigTable := by
    rw [main_eq]
  obtain ⟨mh, tr, hst⟩ : ∃ (mh : MsgHandler) (tr : List Event), mainBootstrap env args =
      ⟨mh, [(env.sigs.SIGPIPE, .SIG_IGN),
          (env.sigs.SIGABRT, .handler .sigSegvHandler ⟨false, true⟩),
          (env.sigs.SIGSEGV, .handler .sigSegvHandler ⟨false, true⟩),
          (env.sigs.SIGHUP, .handler .hupSignalHandler ⟨true, false⟩)], [], tr⟩ :=
    ⟨_, _, mainBootstrap_eq env args⟩
  rw [hst]
  simp only [SignalNumbers.Distinct, List.nodup_cons, List.mem_cons, List.mem_singleton,
    List.not_mem_nil, not_or, List.nodup_nil, and_true, not_false_eq_true] at hd
  obtain ⟨⟨h12, h13, h14⟩, ⟨h23, h24⟩, h34⟩ := hd
  have k1 : ¬ env.sigs.SIGPIPE = env.sigs.SIGSEGV := fun e => h34 e.symm
  have k2 : ¬ env.sigs.SIGPIPE = env.sigs.SIGABRT := fun e => h24 e.symm
  have k3 : ¬ env.sigs.SIGPIPE = env.sigs.SIGHUP := fun e => h14 e.symm
  have k4 : ¬ env.sigs.SIGSEGV = env.sigs.SIGABRT := fun e => h23 e.symm
  have k5 : ¬ env.sigs.SIGSEGV = env.sigs.SIGHUP := fun e => h13 e.symm
  have k6 : ¬ env.sigs.SIGABRT = env.sigs.SIGHUP := fun e => h12 e.symm
  have dSEGV : ∀ (m : MsgHandler) (pd : List Int) (t : List Event),
      ProcessState.disposition
        ⟨m, [(env.sigs.SIGPIPE, .SIG_IGN),
          (env.sigs.SIGABRT, .handler .sigSegvHandler ⟨false, true⟩),
          (env.sigs.SIGSEGV, .handler .sigSegvHandler ⟨false, true⟩),
          (env.sigs.SIGHUP, .handler .hupSignalHandler ⟨true, false⟩)], pd, t⟩
        env.sigs.SIGSEGV = .handler .sigSegvHandler ⟨false, true⟩ := by
    intro m pd t
    rw [disposition_cons_ne _ _ _ _ _ _ _ k1, disposition_cons_ne _ _ _ _ _ _ _ h23,
      disposition_cons_eq]
  have dABRT : ∀ (m : MsgHandler) (pd : List Int) (t : List Event),
      ProcessState.disposition
        ⟨m, [(env.sigs.SIGPIPE, .SIG_IGN),
          (env.sigs.SIGABRT, .handler .sigSegvHandler ⟨false, true⟩),
          (env.sigs.SIGSEGV, .handler .sigSegvHandler ⟨false, true⟩),
          (env.sigs.SIGHUP, .handler .hupSignalHandler ⟨true, false⟩)], pd, t⟩
        env.sigs.SIGABRT = .handler .sigSegvHandler ⟨false, true⟩ := by
    intro m pd t
    rw [disposition_cons_ne _ _ _ _ _ _ _ k2, disposition_cons_eq]
  have dHUP : ∀ (m : MsgHandler) (pd : List Int) (t : List Event),
      ProcessState.disposition
        ⟨m, [(env.sigs.SIGPIPE, .SIG_IGN),
          (env.sigs.SIGABRT, .handler .sigSegvHandler ⟨false, true⟩),
          (env.sigs.SIGSEGV, .handler .sigSegvHandler ⟨false, true⟩),
          (env.sigs.SIGHUP, .handler .hupSignalHandler ⟨true, false⟩)], pd, t⟩
        env.sigs.SIGHUP = .handler .hupSignalHandler ⟨true, false⟩ := by
    intro m pd t
    rw [disposition_cons_ne _ _ _ _ _ _ _ k3, disposition_cons_ne _ _ _ _ _ _ _ k6,
      disposition_cons_ne _ _ _ _ _ _ _ k5, disposition_cons_eq]
  have dPIPE : ∀ (m : MsgHandler) (pd : List Int) (t : List Event),
      ProcessState.disposition
        ⟨m, [(env.sigs.SIGPIPE, .SIG_IGN),
          (env.sigs.SIGABRT, .handler .sigSegvHandler ⟨false, true⟩),
          (env.sigs.SIGSEGV, .handler .sigSegvHandler ⟨false, true⟩),
          (env.sigs.SIGHUP, .handler .hupSignalHandler ⟨true, false⟩)], pd, t⟩
        env.sigs.SIGPIPE = .SIG_IGN := by
    intro m pd t
    rw [disposition_cons_eq]
  refine ⟨⟨dSEGV _ _ _, dABRT _ _ _⟩, ?_, ?_, ?_, by rw [hlast, hst]⟩
  · intro sig hsig
    rcases hsig with rfl | rfl
    · refine ⟨"CRASH: SIGSEGV", fun _ => rfl, fun e => absurd e k4, ?_⟩
      have e1 : deliver env.sigs env.sigs.SIGSEGV
          ⟨mh, [(env.sigs.SIGPIPE, .SIG_IGN),
            (env.sigs.SIGABRT, .handler .sigSegvHandler ⟨false, true⟩),
            (env.sigs.SIGSEGV, .handler .sigSegvHandler ⟨false, true⟩),
            (env.sigs.SIGHUP, .handler .hupSignalHandler ⟨true, false⟩)], [], tr⟩ =
          ⟨mh, [(env.sigs.SIGSEGV, .SIG_DFL), (env.sigs.SIGPIPE, .SIG_IGN),
            (env.sigs.SIGABRT, .handler .sigSegvHandler ⟨false, true⟩),
            (env.sigs.SIGSEGV, .handler .sigSegvHandler ⟨false, true⟩),
            (env.sigs.SIGHUP, .handler .hupSignalHandler ⟨true, false⟩)],
            [env.sigs.SIGSEGV],
            tr ++ [.backtrace 40,
              .fprintfStderr ("Error: signal " ++ toString env.sigs.SIGSEGV ++ ":\n"),
              .backtraceSymbolsFd, .logMessage "CRASH: SIGSEGV", .loggerDeleteLater,
              .loggerThreadWait, .deleteLoggerThread, .raise env.sigs.SIGSEGV]⟩ := by
        simp only [deliver, dSEGV]
        simp [sigSegvHandler, ProcessState.setDisposition, ProcessState.emit, raise,
          SIGSEGV_TRACE_LINES]
      have e2 : ∀ (pd : List Int) (t : List Event), ProcessState.disposition
          ⟨mh, [(env.sigs.SIGSEGV, .SIG_DFL), (env.sigs.SIGPIPE, .SIG_IGN),
            (env.sigs.SIGABRT, .handler .sigSegvHandler ⟨false, true⟩),
            (env.sigs.SIGSEGV, .handler .sigSegvHandler ⟨false, true⟩),
            (env.sigs.SIGHUP, .handler .hupSignalHandler ⟨true, false⟩)], pd, t⟩
          env.sigs.SIGSEGV = .SIG_DFL := by
        intro pd t
        rw [disposition_cons_eq]
      have e3 : ∀ (pd : List Int) (t : List Event), deliver env.sigs env.sigs.SIGSEGV
          ⟨mh, [(env.sigs.SIGSEGV, .SIG_DFL), (env.sigs.SIGPIPE, .SIG_IGN),
            (env.sigs.SIGABRT, .handler .sigSegvHandler ⟨false, true⟩),
            (env.sigs.SIGSEGV, .handler .sigSegvHandler ⟨false, true⟩),
            (env.sigs.SIGHUP, .handler .hupSignalHandler ⟨true, false⟩)], pd, t⟩ =
          ⟨mh, [(env.sigs.SIGSEGV, .SIG_DFL), (env.sigs.SIGPIPE, .SIG_IGN),
            (env.sigs.SIGABRT, .handler .sigSegvHandler ⟨false, true⟩),
            (env.sigs.SIGSEGV, .handler .sigSegvHandler ⟨false, true⟩),
            (env.sigs.SIGHUP, .handler .hupSignalHandler ⟨true, false⟩)], pd,
            t ++ [.defaultAction env.sigs.SIGSEGV]⟩ := by
        intro pd t
        simp only [deliver, e2]
        rfl
      simp only [signalArrives]
      rw [e1]
      refine ⟨rfl, e2 _ _, ⟨e2 _ _, by simp⟩, ?_, ?_, ?_⟩
      · simp [Armed, e2]
      · rw [e3]
      · intro fuel
        simp only [deliverPending, e3]
        cases fuel <;>
          simp [deliverPending, disposition_cons_eq, loggedMessages, handlerEntries,
            List.filterMap_append, List.count_append, List.count_cons, SIGSEGV_TRACE_LINES]
    · refine ⟨"CRASH: SIGABRT", fun e => absurd e.symm k4, fun _ => rfl, ?_⟩
      have e1 : deliver env.sigs env.sigs.SIGABRT
          ⟨mh, [(env.sigs.SIGPIPE, .SIG_IGN),
            (env.sigs.SIGABRT, .handler .sigSegvHandler ⟨false, true⟩),
            (env.sigs.SIGSEGV, .handler .sigSegvHandler ⟨false, true⟩),
            (env.sigs.SIGHUP, .handler .hupSignalHandler ⟨true, false⟩)], [], tr⟩ =
          ⟨mh, [(env.sigs.SIGABRT, .SIG_DFL), (env.sigs.SIGPIPE, .SIG_IGN),
            (env.sigs.SIGABRT, .handler .sigSegvHandler ⟨false, true⟩),
            (env.sigs.SIGSEGV, .handler .sigSegvHandler ⟨false, true⟩),
            (env.sigs.SIGHUP, .handler .hupSignalHandler ⟨true, false⟩)],
            [env.sigs.SIGABRT],
            tr ++ [.backtrace 40,
              .fprintfStderr ("Error: signal " ++ toString env.sigs.SIGABRT ++ ":\n"),
              .backtraceSymbolsFd, .logMessage "CRASH: SIGABRT", .loggerDeleteLater,
              .loggerThreadWait, .deleteLoggerThread, .raise env.sigs.SIGABRT]⟩ := by
        simp only [deliver, dABRT]
        simp [sigSegvHandler, ProcessState.setDisposition, ProcessState.emit, raise,
          SIGSEGV_TRACE_LINES, h23]
      have e2 : ∀ (pd : List Int) (t : List Event), ProcessState.disposition
          ⟨mh, [(env.sigs.SIGABRT, .SIG_DFL), (env.sigs.SIGPIPE, .SIG_IGN),
            (env.sigs.SIGABRT, .handler .sigSegvHandler ⟨false, true⟩),
            (env.sigs.SIGSEGV, .handler .sigSegvHandler ⟨false, true⟩),
            (env.sigs.SIGHUP, .handler .hupSignalHandler ⟨true, false⟩)], pd, t⟩
          env.sigs.SIGABRT = .SIG_DFL := by
        intro pd t
        rw [disposition_cons_eq]
      have e3 : ∀ (pd : List Int) (t : List Event), deliver env.sigs env.sigs.SIGABRT
          ⟨mh, [(env.sigs.SIGABRT, .SIG_DFL), (env.sigs.SIGPIPE, .SIG_IGN),
            (env.sigs.SIGABRT, .handler .sigSegvHandler ⟨false, true⟩),
            (env.sigs.SIGSEGV, .handler .sigSegvHandler ⟨false, true⟩),
            (env.sigs.SIGHUP, .handler .hupSignalHandler ⟨true, false⟩)], pd, t⟩ =
          ⟨mh, [(env.sigs.SIGABRT, .SIG_DFL), (env.sigs.SIGPIPE, .SIG_IGN),
            (env.sigs.SIGABRT, .handler .sigSegvHandler ⟨false, true⟩),
            (env.sigs.SIGSEGV, .handler .sigSegvHandler ⟨false, true⟩),
            (env.sigs.SIGHUP, .handler .hupSignalHandler ⟨true, false⟩)], pd,
            t ++ [.defaultAction env.sigs.SIGABRT]⟩ := by
        intro pd t
        simp only [deliver, e2]
        rfl
      simp only [signalArrives]
      rw [e1]
      refine ⟨rfl, e2 _ _, ⟨e2 _ _, by simp⟩, ?_, ?_, ?_⟩
      · simp [Armed, e2]
      · rw [e3]
      · intro fuel
        simp only [deliverPending, e3]
        cases fuel <;>
          simp [deliverPending, disposition_cons_eq, loggedMessages, handlerEntries,
            List.filterMap_append, List.count_append, List.count_cons, SIGSEGV_TRACE_LINES]
  · intro n
    rw [deliver_hup_iterate env.sigs _ (dHUP _ _ _) n]
    refine ⟨dHUP _ _ _, ?_, ?_, rfl⟩
    · simp [Firing, dHUP]
    · simp [Armed, dHUP]
  · refine ⟨dPIPE _ _ _, ?_⟩
    simp only [deliver, dPIPE]

/-- Witness for C7, with the signal numbers of Linux. -/
theorem fatal_signal_single_shot_witness :
    (demoEnv true 0).sigs.Distinct ∧
      Armed (mainBootstrap (demoEnv true 0) ["servatrice"]) (demoEnv true 0).sigs.SIGSEGV ∧
      (deliver (demoEnv true 0).sigs (demoEnv true 0).sigs.SIGPIPE
        (mainBootstrap (demoEnv true 0) ["servatrice"]) =
        mainBootstrap (demoEnv true 0) ["servatrice"]) :=
  ⟨by decide,
    (fatal_signal_single_shot (demoEnv true 0) ["servatrice"] (by decide)).1.1,
    (fatal_signal_single_shot (demoEnv true 0) ["servatrice"] (by decide)).2.2.2.1.2⟩

end Servatrice
